import Mathlib

/-!
Verification development for the jami-daemon conferencing core
(src/conference.cpp, src/media/media_attribute.cpp).

The C++ code is shallowly embedded: each member function becomes a pure
Lean function over an explicit conference-state record; calls into
external collaborators (ring-buffer pool, video mixer, call objects,
signal bus) are recorded as elements of an explicit action trace.
-/

set_option maxHeartbeats 1000000

/-! ## MediaAttribute (media/media_attribute.cpp) -/

/-- Media type of a stream. Source: MediaType in media_const, values
MEDIA_AUDIO, MEDIA_VIDEO, MEDIA_NONE. Renamed to short constructors. -/
inductive MediaType where
  | audio
  | video
  | none
deriving DecidableEq, Repr

/-- Source type of a media stream. Modelled from the spec: the enum
MediaSourceType (header absent from src): NONE, CAPTURE_DEVICE, FILE, SCREEN. -/
inductive MediaSourceType where
  | NONE
  | CAPTURE_DEVICE
  | FILE
  | SCREEN
deriving DecidableEq, Repr

/-- Typed description of one media stream.

Modelled from the spec: the field list and defaults come from the header
media_attribute.h, which is absent from src. Spec section 3 gives the fields
and section 4.1 says a missing wire key keeps the default. Defaults here:
type none, muted false, secure true, enabled false, empty strings,
sourceType NONE. -/
structure MediaAttribute where
  type_ : MediaType := MediaType.none
  muted_ : Bool := false
  secure_ : Bool := true
  enabled_ : Bool := false
  sourceUri_ : String := ""
  label_ : String := ""
  sourceType_ : MediaSourceType := MediaSourceType.NONE
deriving DecidableEq, Repr

/-- Wire form: a string-to-string map (DRing::MediaMap). The C++ type is an
ordered unique-key map; parsing only ever looks keys up, so an association
list with a first-match find is an adequate embedding. -/
abbrev MediaMap : Type := List (String × String)

/-- Key-value lookup in a media map (std::map::find). -/
def mapFind (m : MediaMap) (key : String) : Option String :=
  (List.find? (fun p => p.1 == key) m).map (fun p => p.2)

/-- TRUE_STR constant. -/
def TRUE_STR : String := "true"

/-- FALSE_STR constant. -/
def FALSE_STR : String := "false"

/-- MediaAttributeValue::AUDIO. -/
def mediaValueAudio : String := "MEDIA_AUDIO"

/-- MediaAttributeValue::VIDEO. -/
def mediaValueVideo : String := "MEDIA_VIDEO"

/-- MediaAttribute::stringToMediaType. -/
def stringToMediaType (mediaType : String) : MediaType :=
  if mediaType == mediaValueAudio then MediaType.audio
  else if mediaType == mediaValueVideo then MediaType.video
  else MediaType.none

/-- MediaAttribute::getMediaType: pair (found, type). Missing key or an
unrecognised value yields (false, none). -/
def getMediaType (m : MediaMap) : Bool × MediaType :=
  match mapFind m "MEDIA_TYPE" with
  | Option.none => (false, MediaType.none)
  | Option.some s =>
    let t := stringToMediaType s
    if t == MediaType.none then (false, t) else (true, t)

/-- MediaAttribute::getBoolValue: pair (found-and-valid, value). -/
def getBoolValue (m : MediaMap) (key : String) : Bool × Bool :=
  match mapFind m key with
  | Option.none => (false, false)
  | Option.some v =>
    if v == TRUE_STR then (true, true)
    else if v == FALSE_STR then (true, false)
    else (false, false)

/-- MediaAttribute::getStringValue: pair (found, value). -/
def getStringValue (m : MediaMap) (key : String) : Bool × String :=
  match mapFind m key with
  | Option.none => (false, "")
  | Option.some v => (true, v)

/-- MediaAttribute::MediaAttribute(const DRing::MediaMap&): the parsing
constructor. Faithful to the source, including the slip at lines 43 and 47
of media_attribute.cpp where the guards for SOURCE and LABEL re-test
pairBool.first (the result of the ENABLED lookup) instead of
pairString.first. -/
def parseMediaMap (m : MediaMap) : MediaAttribute :=
  let a0 : MediaAttribute := {}
  let pairType := getMediaType m
  let a1 := if pairType.1 then { a0 with type_ := pairType.2 } else a0
  let pairMuted := getBoolValue m "MUTED"
  let a2 := if pairMuted.1 then { a1 with muted_ := pairMuted.2 } else a1
  let pairEnabled := getBoolValue m "ENABLED"
  let a3 := if pairEnabled.1 then { a2 with enabled_ := pairEnabled.2 } else a2
  let pairSource := getStringValue m "SOURCE"
  let a4 := if pairEnabled.1 then { a3 with sourceUri_ := pairSource.2 } else a3
  let pairLabel := getStringValue m "LABEL"
  if pairEnabled.1 then { a4 with label_ := pairLabel.2 } else a4

/-- MediaAttribute::boolToString. -/
def boolToString (val : Bool) : String :=
  if val then TRUE_STR else FALSE_STR

/-- MediaAttribute::mediaTypeToString. The C++ function returns nullptr for
MEDIA_NONE (and building a std::string from it is undefined); the embedding
returns the empty string there, and every theorem that touches this case
restricts itself to audio or video types. -/
def mediaTypeToString (type : MediaType) : String :=
  match type with
  | MediaType.audio => mediaValueAudio
  | MediaType.video => mediaValueVideo
  | MediaType.none => ""

/-- MediaAttribute::toMediaMap: always emits the five wire keys, in the
emplace order of the source. Note that secure_ and sourceType_ are not
emitted. -/
def toMediaMap (mediaAttr : MediaAttribute) : MediaMap :=
  [("MEDIA_TYPE", mediaTypeToString mediaAttr.type_),
   ("LABEL", mediaAttr.label_),
   ("ENABLED", boolToString mediaAttr.enabled_),
   ("MUTED", boolToString mediaAttr.muted_),
   ("SOURCE", mediaAttr.sourceUri_)]

/-- MediaAttribute::hasMediaType. -/
def hasMediaType (mediaList : List MediaAttribute) (type : MediaType) : Bool :=
  mediaList.any (fun media => media.type_ == type)

/-- MediaAttribute::mediaAttributesToMediaMaps. -/
def mediaAttributesToMediaMaps (mediaAttrList : List MediaAttribute) : List MediaMap :=
  mediaAttrList.map toMediaMap

/-- MediaAttribute::buildMediaAttributesList. Modelled from the spec: the
function is called from conference.cpp but its body is absent from src;
spec section 4.1 defines parseList as the elementwise inverse of the
per-map parse, which matches parseMediaList in media_attribute.cpp. -/
def buildMediaAttributesList (mediaList : List MediaMap) : List MediaAttribute :=
  mediaList.map parseMediaMap

/-! ## ConfInfo model (conference.h / conference.cpp) -/

/-- One row of a layout document.

Modelled from the spec: the struct lives in the header conference.h which is
absent from src; spec section 3 lists the fields, and the C++ default member
initialisers are zero, empty and false. -/
structure ParticipantInfo where
  uri : String := ""
  device : String := ""
  sinkId : String := ""
  active : Bool := false
  x : Int := 0
  y : Int := 0
  w : Int := 0
  h : Int := 0
  videoMuted : Bool := false
  audioLocalMuted : Bool := false
  audioModeratorMuted : Bool := false
  isModerator : Bool := false
  handRaised : Bool := false
deriving DecidableEq, Repr

/-- Layout document: ordered rows plus canvas dimensions. In C++ ConfInfo
derives from a vector of ParticipantInfo and adds the fields w, h. -/
structure ConfInfo where
  p : List ParticipantInfo := []
  w : Int := 0
  h : Int := 0
deriving DecidableEq, Repr

/-- Conversion of a C++ float to int truncates toward zero. The float
arithmetic itself is embedded as exact rational arithmetic. -/
def cppTrunc (q : Rat) : Int :=
  if q < 0 then Int.ceil q else Int.floor q

/-- Rescaling of one remote cell into the local canvas, following the body
of the loop in Conference::resizeRemoteParticipants (conference.cpp lines
1501 to 1506): (x, y, w, h) maps to
(x / zoomX + localCell.x, y / zoomY + localCell.y, w / zoomX, h / zoomY)
with zoomX = remoteFrameWidth / localCell.w and
zoomY = remoteFrameHeight / localCell.h. -/
def resizeCell (remoteFrameWidth remoteFrameHeight : Int)
    (localCell : ParticipantInfo) (remoteCell : ParticipantInfo) : ParticipantInfo :=
  let zoomX : Rat := (remoteFrameWidth : Rat) / (localCell.w : Rat)
  let zoomY : Rat := (remoteFrameHeight : Rat) / (localCell.h : Rat)
  { remoteCell with
    x := cppTrunc ((remoteCell.x : Rat) / zoomX + (localCell.x : Rat))
    y := cppTrunc ((remoteCell.y : Rat) / zoomY + (localCell.y : Rat))
    w := cppTrunc ((remoteCell.w : Rat) / zoomX)
    h := cppTrunc ((remoteCell.h : Rat) / zoomY) }

/-- Conference::resizeRemoteParticipants. The confInfo argument of the C++
method is mutated in place; here the local layout is passed as localInfo and
the updated remote document is returned. When the received canvas is zero
the code falls back to the decoded-frame dimensions of the remote call
(an external collaborator), passed here as fallbackW and fallbackH; if the
dimensions are still zero the merge is aborted and the document returned
unchanged. -/
def resizeRemoteParticipants (localInfo : ConfInfo) (confInfo : ConfInfo)
    (peerURI : String) (fallbackW fallbackH : Int) : ConfInfo :=
  let remoteFrameHeight := if confInfo.h == 0 || confInfo.w == 0 then fallbackH else confInfo.h
  let remoteFrameWidth := if confInfo.h == 0 || confInfo.w == 0 then fallbackW else confInfo.w
  if remoteFrameHeight == 0 || remoteFrameWidth == 0 then confInfo
  else
    let localCell : ParticipantInfo :=
      (localInfo.p.find? (fun q => q.uri == peerURI)).getD {}
    { confInfo with
      p := confInfo.p.map (resizeCell remoteFrameWidth remoteFrameHeight localCell) }

/-- Pixel-inclusive containment of one cell within another. -/
def cellWithin (outer inner : ParticipantInfo) : Bool :=
  outer.x ≤ inner.x && inner.x + inner.w ≤ outer.x + outer.w &&
  outer.y ≤ inner.y && inner.y + inner.h ≤ outer.y + outer.h

/-! ## Conference state model (conference.cpp) -/

/-- Conference::State. Modelled from the spec (section 3): the enum lives in
the header, absent from src. -/
inductive ConferenceState where
  | ACTIVE_ATTACHED
  | ACTIVE_DETACHED
  | DESTROYED
deriving DecidableEq, Repr

/-- Video mixer layouts (video::Layout). -/
inductive VideoLayout where
  | GRID
  | ONE_BIG_WITH_SMALL
  | ONE_BIG
deriving DecidableEq, Repr

/-- External view of one Call collaborator, reduced to the queries the
conference core makes on it. accountUsername is the username of the account
when getAccount().lock() succeeds, none when the account is gone. -/
structure Call where
  peerNumber : String := ""
  accountUsername : Option String := Option.none
  isPeerMuted : Bool := false
  hasVideoReceiver : Bool := false
  mediaList : List MediaAttribute := []
deriving DecidableEq, Repr

/-- CallFactory lookup environment: call id to Call. -/
abbrev Env : Type := List (String × Call)

/-- Manager::getCallFromCallID / CallFactory::getCall. -/
def getCall (env : Env) (callId : String) : Option Call :=
  (env.find? (fun q => q.1 == callId)).map (fun q => q.2)

/-- string_remove_suffix(uri, AT): the part of the string before the first
at-sign (the whole string when there is none). -/
def string_remove_suffix (s : String) : String :=
  String.mk (s.data.takeWhile (fun ch => ch != '@'))

/-- Member variables of class Conference. Mixer internals stay external:
videoMixerPresent records whether videoMixer_ is non-null, and
mixerHasActiveParticipant the observable used by setLayout(0). -/
structure Conference where
  confState_ : ConferenceState := ConferenceState.ACTIVE_ATTACHED
  participants_ : List String := []
  moderators_ : List String := []
  participantsMuted_ : List String := []
  handsRaised_ : List String := []
  hostAudioSource_ : MediaAttribute := {}
  hostVideoSource_ : MediaAttribute := {}
  remoteHosts_ : List (String × ConfInfo) := []
  confInfo_ : ConfInfo := {}
  videoEnabled_ : Bool := true
  videoMixerPresent : Bool := true
  mixerHasActiveParticipant : Bool := false
deriving DecidableEq, Repr

/-- std::set emplace on the list embedding of a string set. -/
def setEmplace (l : List String) (x : String) : List String :=
  if l.contains x then l else l ++ [x]

/-- std::set erase on the list embedding of a string set. -/
def setErase (l : List String) (x : String) : List String :=
  l.filter (fun y => y != x)

/-- Externally visible effects: ring-buffer rebinding, mixer commands,
signals, wire messages. bindHost, unbindHost, bindParticipant and
unbindParticipant are recorded as single actions standing for the
corresponding Conference member functions (conference.cpp lines 886 to 946),
whose bodies only talk to the process-wide RingBufferPool. -/
inductive ConfAction where
  | bindHost
  | unbindHost
  | bindParticipant (callId : String)
  | unbindParticipant (callId : String)
  | sendConferenceInfos
  | emitAudioMuted (muted : Bool)
  | emitVideoMuted (muted : Bool)
  | sendMuteOrder (callId : String) (uri : String) (state : String)
  | sendHangupOrder (callId : String) (uri : String)
  | requestCallMediaChange (callId : String) (mediaList : List MediaMap)
  | mixerSetActiveHost
  | mixerSetActiveParticipant (callId : String)
  | mixerClearActiveParticipant
  | mixerSetVideoLayout (layout : VideoLayout)
  | mixerStopInput
  | mixerSwitchInput (uri : String)
  | mixerUpdateLayout
  | detachLocalRequest
  | hangupCall (callId : String)
deriving DecidableEq, Repr

/-- Conference::isHost (conference.cpp lines 1354 to 1371): the empty URI is
the host, and otherwise any URI equal to the username of the account of one
of the participating calls. -/
def isHost (c : Conference) (env : Env) (uri : String) : Bool :=
  if uri == "" then true
  else c.participants_.any (fun q =>
    match getCall env q with
    | Option.some call =>
      match call.accountUsername with
      | Option.some u => u == uri
      | Option.none => false
    | Option.none => false)

/-- Conference::isModerator. -/
def isModerator (c : Conference) (env : Env) (uri : String) : Bool :=
  c.moderators_.contains uri || isHost c env uri

/-- Conference::isMuted. -/
def isMuted (c : Conference) (uri : String) : Bool :=
  c.participantsMuted_.contains uri

/-- Conference::isHandRaised. -/
def isHandRaised (c : Conference) (env : Env) (uri : String) : Bool :=
  if isHost c env uri then c.handsRaised_.contains "host"
  else c.handsRaised_.contains uri

/-- Conference::isMediaSourceMuted (conference.cpp lines 352 to 378). -/
def isMediaSourceMuted (c : Conference) (type : MediaType) : Bool :=
  if c.confState_ != ConferenceState.ACTIVE_ATTACHED then true
  else if type != MediaType.audio && type != MediaType.video then true
  else
    let mediaAttr := if type == MediaType.audio then c.hostAudioSource_ else c.hostVideoSource_
    if mediaAttr.type_ == MediaType.none then true
    else mediaAttr.muted_

/-- Conference::setLocalHostMuteState. -/
def setLocalHostMuteState (c : Conference) (type : MediaType) (muted : Bool) : Conference :=
  if type == MediaType.audio then
    { c with hostAudioSource_ := { c.hostAudioSource_ with muted_ := muted } }
  else if type == MediaType.video then
    { c with hostVideoSource_ := { c.hostVideoSource_ with muted_ := muted } }
  else c

/-- Conference::getCallFromPeerID, returning the call id alongside the call
(in the source the id is recoverable from the call object). -/
def getCallFromPeerID (c : Conference) (env : Env) (peerID : String) : Option (String × Call) :=
  c.participants_.findSome? (fun q =>
    match getCall env q with
    | Option.some call =>
      if string_remove_suffix call.peerNumber == peerID then Option.some (q, call)
      else Option.none
    | Option.none => Option.none)

/-- Conference::findHostforRemoteParticipant. -/
def findHostforRemoteParticipant (c : Conference) (uri : String) : String :=
  match c.remoteHosts_.find? (fun h => h.2.p.any (fun q => uri == string_remove_suffix q.uri)) with
  | Option.some h => h.1
  | Option.none => ""

/-- Conference::updateMuted (conference.cpp lines 1303 to 1320): refresh the
mute columns of every layout row, then broadcast. -/
def updateMuted (c : Conference) (env : Env) : Conference × List ConfAction :=
  let rows := c.confInfo_.p.map (fun info =>
    let peerID := string_remove_suffix info.uri
    if peerID == "" then
      { info with audioModeratorMuted := isMuted c "host",
                  audioLocalMuted := isMediaSourceMuted c MediaType.audio }
    else
      let info1 := { info with audioModeratorMuted := isMuted c peerID }
      match getCallFromPeerID c env peerID with
      | Option.some pc => { info1 with audioLocalMuted := pc.2.isPeerMuted }
      | Option.none => info1)
  ({ c with confInfo_ := { c.confInfo_ with p := rows } }, [ConfAction.sendConferenceInfos])

/-- Conference::updateHandsRaised. -/
def updateHandsRaised (c : Conference) (env : Env) : Conference × List ConfAction :=
  let rows := c.confInfo_.p.map (fun info =>
    { info with handRaised := isHandRaised c env (string_remove_suffix info.uri) })
  ({ c with confInfo_ := { c.confInfo_ with p := rows } }, [ConfAction.sendConferenceInfos])

/-- Conference::setHandRaised (conference.cpp lines 1148 to 1183). The host
key is the literal "host"; for a peer the first participating call whose
stripped peer number matches is used, and nothing happens when none does. -/
def setHandRaised (c : Conference) (env : Env) (participant_id : String) (state : Bool) :
    Conference × List ConfAction :=
  if isHost c env participant_id then
    let isPeerRequiringAttention := isHandRaised c env "host"
    if state && !isPeerRequiringAttention then
      updateHandsRaised { c with handsRaised_ := setEmplace c.handsRaised_ "host" } env
    else if !state && isPeerRequiringAttention then
      updateHandsRaised { c with handsRaised_ := setErase c.handsRaised_ "host" } env
    else (c, [])
  else
    match c.participants_.findSome? (fun q =>
      match getCall env q with
      | Option.some call =>
        if participant_id == string_remove_suffix call.peerNumber then Option.some call
        else Option.none
      | Option.none => Option.none) with
    | Option.some _ =>
      let isPeerRequiringAttention := isHandRaised c env participant_id
      if state && !isPeerRequiringAttention then
        updateHandsRaised { c with handsRaised_ := setEmplace c.handsRaised_ participant_id } env
      else if !state && isPeerRequiringAttention then
        updateHandsRaised { c with handsRaised_ := setErase c.handsRaised_ participant_id } env
      else (c, [])
    | Option.none => (c, [])

/-- Conference::muteParticipant (conference.cpp lines 1242 to 1301). Case
order as in the source: remote sub-host first (forward the order, no
rebroadcast), then host, then ordinary participant; when the remote host is
found but its call is not, control falls through to the local cases. -/
def muteParticipant (c : Conference) (env : Env) (participant_id : String) (state : Bool) :
    Conference × List ConfAction :=
  let hostOrLocal : Conference × List ConfAction :=
    if isHost c env participant_id then
      let isHostMuted := isMuted c "host"
      let r1 : Conference × List ConfAction :=
        if state && !isHostMuted then
          let cA := { c with participantsMuted_ := setEmplace c.participantsMuted_ "host" }
          if !(isMediaSourceMuted c MediaType.audio) then (cA, [ConfAction.unbindHost])
          else (cA, [])
        else if !state && isHostMuted then
          let cA := { c with participantsMuted_ := setErase c.participantsMuted_ "host" }
          if !(isMediaSourceMuted c MediaType.audio) then (cA, [ConfAction.bindHost])
          else (cA, [])
        else (c, [])
      let r2 := updateMuted r1.1 env
      (r2.1, r1.2 ++ r2.2)
    else
      match getCallFromPeerID c env participant_id with
      | Option.some pc =>
        let isPartMuted := isMuted c participant_id
        if state && !isPartMuted then
          let cA := { c with participantsMuted_ := setEmplace c.participantsMuted_ participant_id }
          let r2 := updateMuted cA env
          (r2.1, [ConfAction.unbindParticipant pc.1] ++ r2.2)
        else if !state && isPartMuted then
          let cA := { c with participantsMuted_ := setErase c.participantsMuted_ participant_id }
          let r2 := updateMuted cA env
          (r2.1, [ConfAction.bindParticipant pc.1] ++ r2.2)
        else (c, [])
      | Option.none => (c, [])
  let remoteHost := findHostforRemoteParticipant c participant_id
  if remoteHost != "" then
    match getCallFromPeerID c env (string_remove_suffix remoteHost) with
    | Option.some pc =>
      match pc.2.accountUsername with
      | Option.none => (c, [])
      | Option.some _ =>
        (c, [ConfAction.sendMuteOrder pc.1 participant_id (if state then TRUE_STR else FALSE_STR)])
    | Option.none => hostOrLocal
  else hostOrLocal

/-- DRing::Media::Details::MEDIA_TYPE_AUDIO. -/
def mediaTypeAudioString : String := "MEDIA_TYPE_AUDIO"

/-- DRing::Media::Details::MEDIA_TYPE_VIDEO. -/
def mediaTypeVideoString : String := "MEDIA_TYPE_VIDEO"

/-- Wire string for a media type as selected by the ternaries in
conference.cpp (audio maps to the audio detail string, anything else to the
video one). -/
def mediaTypeDetailsString (t : MediaType) : String :=
  if t == MediaType.audio then mediaTypeAudioString else mediaTypeVideoString

/-- Conference::switchInput (conference.cpp lines 978 to 1002): record the
new host video source URI, and command the mixer when video is enabled and
the mixer exists. Plugin preview streams are outside the model. -/
def switchInput (c : Conference) (input : String) : Conference × List ConfAction :=
  let c1 := { c with hostVideoSource_ := { c.hostVideoSource_ with sourceUri_ := input } }
  if !c1.videoEnabled_ then (c1, [])
  else if c1.videoMixerPresent then (c1, [ConfAction.mixerSwitchInput input])
  else (c1, [])

/-- Conference::muteLocalHost (conference.cpp lines 1415 to 1463). -/
def muteLocalHost (c : Conference) (env : Env) (is_muted : Bool) (mediaType : String) :
    Conference × List ConfAction :=
  if mediaType == mediaTypeAudioString then
    if is_muted == isMediaSourceMuted c MediaType.audio then (c, [])
    else
      let isHostMuted := isMuted c "host"
      let acts1 : List ConfAction :=
        if is_muted && !(isMediaSourceMuted c MediaType.audio) && !isHostMuted then
          [ConfAction.unbindHost]
        else if !is_muted && isMediaSourceMuted c MediaType.audio && !isHostMuted then
          [ConfAction.bindHost]
        else []
      let c1 := setLocalHostMuteState c MediaType.audio is_muted
      let r2 := updateMuted c1 env
      (r2.1, acts1 ++ r2.2 ++ [ConfAction.emitAudioMuted is_muted])
  else if mediaType == mediaTypeVideoString then
    if !c.videoEnabled_ then (c, [])
    else if is_muted == isMediaSourceMuted c MediaType.video then (c, [])
    else
      let c1 := setLocalHostMuteState c MediaType.video is_muted
      if is_muted then
        (c1, (if c1.videoMixerPresent then [ConfAction.mixerStopInput] else [])
             ++ [ConfAction.emitVideoMuted is_muted])
      else
        if c1.videoMixerPresent then
          let r2 := switchInput c1 c1.hostVideoSource_.sourceUri_
          (r2.1, r2.2 ++ [ConfAction.emitVideoMuted is_muted])
        else (c1, [ConfAction.emitVideoMuted is_muted])
  else (c, [])

/-- Conference::setLayout (conference.cpp lines 684 to 705): 0 is grid and
clears the active participant when one is set, 1 and 2 pick the two
emphasised layouts, other values are ignored. -/
def setLayout (c : Conference) (layout : Nat) : List ConfAction :=
  match layout with
  | 0 =>
    [ConfAction.mixerSetVideoLayout VideoLayout.GRID]
      ++ (if c.mixerHasActiveParticipant then [ConfAction.mixerClearActiveParticipant] else [])
  | 1 => [ConfAction.mixerSetVideoLayout VideoLayout.ONE_BIG_WITH_SMALL]
  | 2 => [ConfAction.mixerSetVideoLayout VideoLayout.ONE_BIG]
  | _ => []

/-- Conference::setActiveParticipant (conference.cpp lines 657 to 682). -/
def setActiveParticipant (c : Conference) (env : Env) (participant_id : String) :
    List ConfAction :=
  if !c.videoMixerPresent then []
  else if isHost c env participant_id then [ConfAction.mixerSetActiveHost]
  else
    match getCallFromPeerID c env participant_id with
    | Option.some pc =>
      if pc.2.hasVideoReceiver then [ConfAction.mixerSetActiveParticipant pc.1] else []
    | Option.none =>
      if findHostforRemoteParticipant c participant_id != "" then []
      else [ConfAction.mixerClearActiveParticipant]

/-- Conference::hangupParticipant (conference.cpp lines 1381 to 1413). The
host case routes through Manager::detachLocalParticipant, an external
collaborator, recorded as a request action. -/
def hangupParticipant (c : Conference) (env : Env) (participant_id : String) :
    Conference × List ConfAction :=
  if isHost c env participant_id then (c, [ConfAction.detachLocalRequest])
  else
    match getCallFromPeerID c env participant_id with
    | Option.some pc =>
      match pc.2.accountUsername with
      | Option.some _ => (c, [ConfAction.hangupCall pc.1])
      | Option.none => (c, [])
    | Option.none =>
      let remoteHost := findHostforRemoteParticipant c participant_id
      if remoteHost == "" then (c, [])
      else
        match getCallFromPeerID c env (string_remove_suffix remoteHost) with
        | Option.some pc =>
          match pc.2.accountUsername with
          | Option.none => (c, [])
          | Option.some _ => (c, [ConfAction.sendHangupOrder pc.1 participant_id])
        | Option.none => (c, [])

/-! ## Conference order protocol (conference.cpp onConfOrder) -/

/-- Decoded top-level members of a conf-order JSON message. A none field
stands for an absent member. Json::Value asString on an absent or
non-string member yields the empty string, which the stages below reproduce
through getD. -/
structure ConfOrder where
  handRaised : Option String := Option.none
  handState : Option String := Option.none
  layout : Option Nat := Option.none
  activeParticipant : Option String := Option.none
  muteParticipant : Option String := Option.none
  muteState : Option String := Option.none
  hangupParticipant : Option String := Option.none
deriving DecidableEq, Repr

/-- Hand-raise member processing in Conference::onConfOrder (conference.cpp
lines 1096 to 1105), which runs before the moderator check: the sender may
set their own state; a moderator may lower, and only lower, another hand. -/
def handRaisedStage (c : Conference) (env : Env) (peerID : String) (o : ConfOrder) :
    Conference × List ConfAction :=
  match o.handRaised with
  | Option.none => (c, [])
  | Option.some uri =>
    let state := (o.handState.getD "") == TRUE_STR
    if peerID == uri then setHandRaised c env uri state
    else if !state && isModerator c env peerID then setHandRaised c env uri state
    else (c, [])

/-- Layout member processing (conference.cpp line 1113), guarded by
isVideoEnabled. -/
def layoutStage (c : Conference) (o : ConfOrder) : Conference × List ConfAction :=
  if c.videoEnabled_ then
    match o.layout with
    | Option.some n => (c, setLayout c n)
    | Option.none => (c, [])
  else (c, [])

/-- Active-participant member processing (conference.cpp line 1116). -/
def activeStage (c : Conference) (env : Env) (o : ConfOrder) : Conference × List ConfAction :=
  match o.activeParticipant with
  | Option.some uri => (c, setActiveParticipant c env uri)
  | Option.none => (c, [])

/-- Mute member processing (conference.cpp line 1119): requires both the
muteParticipant and the muteState members. -/
def muteStage (c : Conference) (env : Env) (o : ConfOrder) : Conference × List ConfAction :=
  match o.muteParticipant, o.muteState with
  | Option.some uri, Option.some s => muteParticipant c env uri (s == TRUE_STR)
  | _, _ => (c, [])

/-- Hangup member processing (conference.cpp line 1123). -/
def hangupStage (c : Conference) (env : Env) (o : ConfOrder) : Conference × List ConfAction :=
  match o.hangupParticipant with
  | Option.some uri => hangupParticipant c env uri
  | Option.none => (c, [])

/-- Conference::onConfOrder (conference.cpp lines 1078 to 1127) on an
already decoded message (JSON parse failures are dropped by the caller side
of this embedding): the hand-raise member is processed first, then the
moderator gate, then layout, active participant, mute and hangup in that
order. -/
def onConfOrder (c : Conference) (env : Env) (callId : String) (o : ConfOrder) :
    Conference × List ConfAction :=
  match getCall env callId with
  | Option.none => (c, [])
  | Option.some call =>
    let peerID := string_remove_suffix call.peerNumber
    let r1 := handRaisedStage c env peerID o
    if !(isModerator r1.1 env peerID) then r1
    else
      let r2 := layoutStage r1.1 o
      let r3 := activeStage r2.1 env o
      let r4 := muteStage r3.1 env o
      let r5 := hangupStage r4.1 env o
      (r5.1, r1.2 ++ r2.2 ++ r3.2 ++ r4.2 ++ r5.2)

/-! ## takeOverMediaSourceControl and requestMediaChange -/

/-- Predicate of the find_if in Conference::takeOverMediaSourceControl: a
media of the requested type with a valid source type. -/
def mediaSourcePred (t : MediaType) (mediaAttr : MediaAttribute) : Bool :=
  mediaAttr.type_ == t && mediaAttr.sourceType_ != MediaSourceType.NONE

/-- Un-mute the first entry matching mediaSourcePred, as the write through
the find_if iterator does. -/
def unmuteFirst : List MediaAttribute → MediaType → List MediaAttribute
  | [], _ => []
  | a :: rest, t =>
    if mediaSourcePred t a then { a with muted_ := false } :: rest
    else a :: unmuteFirst rest t

/-- One media type of the loop in Conference::takeOverMediaSourceControl
(conference.cpp lines 399 to 430): when the call has an active source of
this type, in attached mode inherit its mute state if it is the only
participant, otherwise AND it with the current host mute state; then force
the mute flag of the stream in the list to false. -/
def takeOverType (c : Conference) (ml : List MediaAttribute) (t : MediaType) :
    Conference × List MediaAttribute :=
  match ml.find? (mediaSourcePred t) with
  | Option.none => (c, ml)
  | Option.some a =>
    let c1 :=
      if c.confState_ == ConferenceState.ACTIVE_ATTACHED then
        if c.participants_.length == 1 then setLocalHostMuteState c t a.muted_
        else setLocalHostMuteState c t (a.muted_ && isMediaSourceMuted c t)
      else c
    (c1, unmuteFirst ml t)

/-- Conference::takeOverMediaSourceControl (conference.cpp lines 380 to
451): audio then video, then ask the call to re-apply its media, then emit
the AudioMuted and VideoMuted signals with the resulting host states. -/
def takeOverMediaSourceControl (c : Conference) (env : Env) (callId : String) :
    Conference × List ConfAction :=
  match getCall env callId with
  | Option.none => (c, [])
  | Option.some call =>
    match call.accountUsername with
    | Option.none => (c, [])
    | Option.some _ =>
      let r1 := takeOverType c call.mediaList MediaType.audio
      let r2 := takeOverType r1.1 r1.2 MediaType.video
      (r2.1, [ConfAction.requestCallMediaChange callId (mediaAttributesToMediaMaps r2.2),
              ConfAction.emitAudioMuted (isMediaSourceMuted r2.1 MediaType.audio),
              ConfAction.emitVideoMuted (isMediaSourceMuted r2.1 MediaType.video)])

/-- Host media slot for a media type, as picked by the ternary in
Conference::requestMediaChange (audio selects the audio slot, anything else
the video slot). -/
def hostSourceFor (c : Conference) (t : MediaType) : MediaAttribute :=
  if t == MediaType.audio then c.hostAudioSource_ else c.hostVideoSource_

/-- Per-attribute loop of Conference::requestMediaChange (conference.cpp
lines 490 to 528). A requested source change on a non-video attribute
aborts with false; a video source change updates the slot then either flips
the mute state through muteLocalHost or switches the mixer input; finally a
remaining mute-state difference is applied through muteLocalHost. -/
def requestMediaChangeLoop (env : Env) : Conference → List MediaAttribute →
    Bool × Conference × List ConfAction
  | c, [] => (true, c, [])
  | c, mediaAttr :: rest =>
    let mediaSource := hostSourceFor c mediaAttr.type_
    let changeReq := mediaAttr.sourceUri_ != "" && mediaSource.sourceUri_ != mediaAttr.sourceUri_
    if changeReq && mediaAttr.type_ != MediaType.video then (false, c, [])
    else
      let r1 : Conference × List ConfAction :=
        if changeReq then
          let cA := { c with hostVideoSource_ :=
            { c.hostVideoSource_ with sourceUri_ := mediaAttr.sourceUri_,
                                      sourceType_ := mediaAttr.sourceType_ } }
          if cA.hostVideoSource_.muted_ != mediaAttr.muted_ then
            muteLocalHost cA env mediaAttr.muted_ (mediaTypeDetailsString mediaAttr.type_)
          else switchInput cA cA.hostVideoSource_.sourceUri_
        else (c, [])
      let src2 := hostSourceFor r1.1 mediaAttr.type_
      let r2 : Conference × List ConfAction :=
        if src2.muted_ != mediaAttr.muted_ then
          muteLocalHost r1.1 env mediaAttr.muted_ (mediaTypeDetailsString mediaAttr.type_)
        else (r1.1, [])
      let r3 := requestMediaChangeLoop env r2.1 rest
      (r3.1, r3.2.1, r1.2 ++ r2.2 ++ r3.2.2)

/-- Conference::requestMediaChange (conference.cpp lines 453 to 531):
rejected outright when not attached, rejected when more than one stream of
one media type is requested, otherwise the per-attribute loop runs. -/
def requestMediaChange (c : Conference) (env : Env) (mediaList : List MediaMap) :
    Bool × Conference × List ConfAction :=
  if c.confState_ != ConferenceState.ACTIVE_ATTACHED then (false, c, [])
  else
    let mediaAttrList := buildMediaAttributesList mediaList
    let audioCount := (mediaAttrList.filter (fun attr => attr.type_ == MediaType.audio)).length
    let videoCount := (mediaAttrList.filter (fun attr => attr.type_ == MediaType.video)).length
    if audioCount > 1 || videoCount > 1 then (false, c, [])
    else requestMediaChangeLoop env c mediaAttrList

/-- Conference::mergeConfInfo (conference.cpp lines 1510 to 1547): an empty
document removes the remote host and rebroadcasts; otherwise the document
is rescaled and stored, and the mixer layout is refreshed only when the
stored copy actually changed. -/
def mergeConfInfo (c : Conference) (newInfo : ConfInfo) (peerURI : String)
    (fallbackW fallbackH : Int) : Conference × List ConfAction :=
  if newInfo.p.isEmpty then
    ({ c with remoteHosts_ := c.remoteHosts_.filter (fun h => h.1 != peerURI) },
     [ConfAction.sendConferenceInfos])
  else
    let resized := resizeRemoteParticipants c.confInfo_ newInfo peerURI fallbackW fallbackH
    match c.remoteHosts_.find? (fun h => h.1 == peerURI) with
    | Option.some h =>
      if h.2 != resized then
        let c1 := { c with remoteHosts_ :=
          c.remoteHosts_.map (fun hh => if hh.1 == peerURI then (peerURI, resized) else hh) }
        (c1, if c1.videoMixerPresent then [ConfAction.mixerUpdateLayout] else [])
      else (c, [])
    | Option.none =>
      let c1 := { c with remoteHosts_ := c.remoteHosts_ ++ [(peerURI, resized)] }
      (c1, if c1.videoMixerPresent then [ConfAction.mixerUpdateLayout] else [])

/-! ## Concrete fixtures for witnesses and counterexamples -/

/-- Host audio slot as set by setLocalHostDefaultMediaSource in attached
mode (conference.cpp line 248). -/
def hostAudioFix : MediaAttribute :=
  { type_ := MediaType.audio, muted_ := false, secure_ := false, enabled_ := true,
    sourceUri_ := "", label_ := "audio_0", sourceType_ := MediaSourceType.CAPTURE_DEVICE }

/-- Host video slot as set by setLocalHostDefaultMediaSource in attached
mode (conference.cpp lines 262 to 269). -/
def hostVideoFix : MediaAttribute :=
  { type_ := MediaType.video, muted_ := false, secure_ := false, enabled_ := true,
    sourceUri_ := "camera://main", label_ := "video_0",
    sourceType_ := MediaSourceType.CAPTURE_DEVICE }

/-- Call fixture: peer alice, audio stream muted, video stream unmuted. -/
def callAlice : Call :=
  { peerNumber := "alice@x", accountUsername := Option.some "me", isPeerMuted := false,
    hasVideoReceiver := true,
    mediaList :=
      [{ type_ := MediaType.audio, muted_ := true, secure_ := false, enabled_ := true,
         sourceUri_ := "", label_ := "audio_0", sourceType_ := MediaSourceType.CAPTURE_DEVICE },
       { type_ := MediaType.video, muted_ := false, secure_ := false, enabled_ := true,
         sourceUri_ := "camera://alice", label_ := "video_0",
         sourceType_ := MediaSourceType.CAPTURE_DEVICE }] }

/-- Call fixture: peer bob, locally muted by its peer, audio only. -/
def callBob : Call :=
  { peerNumber := "bob@y", accountUsername := Option.some "me", isPeerMuted := true,
    hasVideoReceiver := false,
    mediaList :=
      [{ type_ := MediaType.audio, muted_ := false, secure_ := false, enabled_ := true,
         sourceUri_ := "", label_ := "audio_0", sourceType_ := MediaSourceType.CAPTURE_DEVICE }] }

/-- Call fixture: the call towards a remote sub-host. -/
def callRemote : Call :=
  { peerNumber := "hostA@z", accountUsername := Option.some "me", isPeerMuted := false,
    hasVideoReceiver := true, mediaList := [] }

/-- Call lookup environment for the fixtures. -/
def envFix : Env := [("c1", callAlice), ("c2", callBob), ("c3", callRemote)]

/-- Attached two-party conference fixture: alice is a moderator, bob is
not; nobody is moderator-muted; no remote hosts. -/
def confFix : Conference :=
  { confState_ := ConferenceState.ACTIVE_ATTACHED,
    participants_ := ["c1", "c2"],
    moderators_ := ["alice"],
    participantsMuted_ := [],
    handsRaised_ := [],
    hostAudioSource_ := hostAudioFix,
    hostVideoSource_ := hostVideoFix,
    remoteHosts_ := [],
    confInfo_ := { p := [{ uri := "", w := 10, h := 10 },
                         { uri := "alice@x", x := 10, w := 10, h := 10 },
                         { uri := "bob@y", x := 20, w := 10, h := 10 }],
                   w := 30, h := 10 },
    videoEnabled_ := true,
    videoMixerPresent := true,
    mixerHasActiveParticipant := false }

/-- Conference fixture with a remote sub-host hosting carol. -/
def confRemote : Conference :=
  { confFix with
    participants_ := ["c1", "c2", "c3"],
    remoteHosts_ := [("hostA@z",
      { p := [{ uri := "carol@w", x := 0, y := 0, w := 5, h := 5 }], w := 10, h := 10 })] }

/-- Conference fixture whose host has been moderator-muted. -/
def confHostMuted : Conference :=
  { confFix with participantsMuted_ := ["host"] }

/-- Single-participant conference fixture. -/
def confSolo : Conference :=
  { confFix with participants_ := ["c1"] }

/-- Detached conference fixture. -/
def confDetached : Conference :=
  { confFix with confState_ := ConferenceState.ACTIVE_DETACHED,
                 hostAudioSource_ := {}, hostVideoSource_ := {} }

/-- Local cell fixture for the remote-host merge. -/
def lCellC7 : ParticipantInfo :=
  { uri := "alice", x := 2, y := 2, w := 8, h := 6 }

/-- Local layout fixture containing lCellC7. -/
def lInfoC7 : ConfInfo := { p := [lCellC7], w := 20, h := 20 }

/-- Remote layout fixture whose cells all lie within its 32 by 12 canvas. -/
def rInfoC7 : ConfInfo :=
  { p := [{ uri := "bob@x", x := 0, y := 0, w := 16, h := 6 },
          { uri := "carol@y", x := 16, y := 6, w := 16, h := 6 }],
    w := 32, h := 12 }

/-- Remote layout fixture with a positive canvas but a cell far outside it. -/
def rBadC7 : ConfInfo :=
  { p := [{ uri := "dave@z", x := 1000, y := 0, w := 10, h := 10 }], w := 10, h := 10 }

/-- Conf-order fixture carrying every recognised member at once. -/
def orderFix : ConfOrder :=
  { handRaised := Option.some "bob", handState := Option.some "true",
    layout := Option.some 2, activeParticipant := Option.some "alice",
    muteParticipant := Option.some "alice", muteState := Option.some "true",
    hangupParticipant := Option.some "alice" }

/-- Conf-order fixture with an unrecognised handState string. -/
def orderOdd : ConfOrder :=
  { handRaised := Option.some "bob", handState := Option.some "maybe",
    layout := Option.some 1 }

/-- Wire list fixture requesting two audio streams. -/
def twoAudioMaps : List MediaMap :=
  [[("MEDIA_TYPE", "MEDIA_AUDIO")], [("MEDIA_TYPE", "MEDIA_AUDIO")]]

/-- Wire list fixture requesting an audio source change. -/
def audioSrcChangeMaps : List MediaMap :=
  [[("MEDIA_TYPE", "MEDIA_AUDIO"), ("ENABLED", "true"), ("MUTED", "false"),
    ("SOURCE", "mic://external"), ("LABEL", "audio_0")]]

/-! ## Theorems -/

/-- C3 counterexample: a valid audio MediaAttribute with a non-default
secure flag and source type does not survive the wire round trip, because
toMediaMap never emits the secure_ and sourceType_ fields. -/
theorem c3_roundtrip_counterexample :
    parseMediaMap (toMediaMap
      { type_ := MediaType.audio, muted_ := false, secure_ := false, enabled_ := true,
        sourceUri_ := "", label_ := "audio_0",
        sourceType_ := MediaSourceType.CAPTURE_DEVICE })
    ≠ { type_ := MediaType.audio, muted_ := false, secure_ := false, enabled_ := true,
        sourceUri_ := "", label_ := "audio_0",
        sourceType_ := MediaSourceType.CAPTURE_DEVICE } := by
  decide

/-- C3 (amended): for every MediaAttribute whose type is audio or video,
parsing the wire map produced from it restores the five wire-carried fields
type, muted, enabled, sourceUri and label, while secure and sourceType come
back as the defaults (true and NONE), since the wire form does not carry
them. -/
theorem c3_roundtrip_wire_fields (x : MediaAttribute) (_h : x.type_ ≠ MediaType.none) :
    parseMediaMap (toMediaMap x)
      = { type_ := x.type_, muted_ := x.muted_, secure_ := true, enabled_ := x.enabled_,
          sourceUri_ := x.sourceUri_, label_ := x.label_,
          sourceType_ := MediaSourceType.NONE } := by
  obtain ⟨t, m, s, e, u, l, st⟩ := x
  cases t <;> cases m <;> cases e <;> rfl

/-- C3 witness: the amended round-trip law evaluated at a concrete video
attribute. -/
theorem c3_roundtrip_wire_fields_witness :
    (MediaAttribute.type_
      { type_ := MediaType.video, muted_ := true, secure_ := true, enabled_ := false,
        sourceUri_ := "camera://front", label_ := "video_0",
        sourceType_ := MediaSourceType.SCREEN } ≠ MediaType.none)
    ∧ parseMediaMap (toMediaMap
        { type_ := MediaType.video, muted_ := true, secure_ := true, enabled_ := false,
          sourceUri_ := "camera://front", label_ := "video_0",
          sourceType_ := MediaSourceType.SCREEN })
      = { type_ := MediaType.video, muted_ := true, secure_ := true, enabled_ := false,
          sourceUri_ := "camera://front", label_ := "video_0",
          sourceType_ := MediaSourceType.NONE } :=
  ⟨by decide,
   c3_roundtrip_wire_fields
     { type_ := MediaType.video, muted_ := true, secure_ := true, enabled_ := false,
       sourceUri_ := "camera://front", label_ := "video_0",
       sourceType_ := MediaSourceType.SCREEN } (by decide)⟩

/-- Truncation toward zero agrees with the floor on nonnegative rationals. -/
theorem cppTrunc_nonneg_eq_floor (q : Rat) (h : 0 ≤ q) : cppTrunc q = Int.floor q := by
  unfold cppTrunc
  exact if_neg (not_lt.mpr h)

/-- One-dimensional bound for the rescaling: a remote span [X, X + W] inside
the remote extent RW lands, after division by the zoom RW / LW and the
shift by LX, inside the local span [LX, LX + LW]. -/
theorem resize_dim_bounds (X W RW LX LW : Int) (hX : (0 : Int) ≤ X) (hW : (0 : Int) ≤ W)
    (hXW : X + W ≤ RW) (hRW : 0 < RW) (hLW : 0 < LW) (hLX : 0 ≤ LX) :
    LX ≤ cppTrunc ((X : Rat) / ((RW : Rat) / (LW : Rat)) + (LX : Rat)) ∧
      cppTrunc ((X : Rat) / ((RW : Rat) / (LW : Rat)) + (LX : Rat))
        + cppTrunc ((W : Rat) / ((RW : Rat) / (LW : Rat))) ≤ LX + LW := by
  have hRWq : (0 : Rat) < (RW : Rat) := by exact_mod_cast hRW
  have hLWq : (0 : Rat) < (LW : Rat) := by exact_mod_cast hLW
  have hzoom : (0 : Rat) < (RW : Rat) / (LW : Rat) := div_pos hRWq hLWq
  have hXq : (0 : Rat) ≤ (X : Rat) := by exact_mod_cast hX
  have hWq : (0 : Rat) ≤ (W : Rat) := by exact_mod_cast hW
  have hLXq : (0 : Rat) ≤ (LX : Rat) := by exact_mod_cast hLX
  have hxdiv : (0 : Rat) ≤ (X : Rat) / ((RW : Rat) / (LW : Rat)) :=
    div_nonneg hXq (le_of_lt hzoom)
  have hwdiv : (0 : Rat) ≤ (W : Rat) / ((RW : Rat) / (LW : Rat)) :=
    div_nonneg hWq (le_of_lt hzoom)
  rw [cppTrunc_nonneg_eq_floor _ (add_nonneg hxdiv hLXq), cppTrunc_nonneg_eq_floor _ hwdiv]
  have hfadd : Int.floor ((X : Rat) / ((RW : Rat) / (LW : Rat)) + (LX : Rat))
      = Int.floor ((X : Rat) / ((RW : Rat) / (LW : Rat))) + LX :=
    Int.floor_add_int ((X : Rat) / ((RW : Rat) / (LW : Rat))) LX
  have hsum : (X : Rat) / ((RW : Rat) / (LW : Rat)) + (W : Rat) / ((RW : Rat) / (LW : Rat))
      ≤ (LW : Rat) := by
    rw [div_add_div_same]
    have h1 : ((X : Rat) + (W : Rat)) ≤ (RW : Rat) := by exact_mod_cast hXW
    have h2 : ((X : Rat) + (W : Rat)) / ((RW : Rat) / (LW : Rat))
        ≤ (RW : Rat) / ((RW : Rat) / (LW : Rat)) := by gcongr
    have h3 : (RW : Rat) / ((RW : Rat) / (LW : Rat)) = (LW : Rat) := by
      field_simp
    rw [h3] at h2
    exact h2
  have hfloorsum : Int.floor ((X : Rat) / ((RW : Rat) / (LW : Rat)))
      + Int.floor ((W : Rat) / ((RW : Rat) / (LW : Rat))) ≤ LW := by
    have hle : ((Int.floor ((X : Rat) / ((RW : Rat) / (LW : Rat)))
        + Int.floor ((W : Rat) / ((RW : Rat) / (LW : Rat))) : Int) : Rat)
        ≤ (X : Rat) / ((RW : Rat) / (LW : Rat)) + (W : Rat) / ((RW : Rat) / (LW : Rat)) := by
      push_cast
      exact add_le_add (Int.floor_le _) (Int.floor_le _)
    have hc : ((Int.floor ((X : Rat) / ((RW : Rat) / (LW : Rat)))
        + Int.floor ((W : Rat) / ((RW : Rat) / (LW : Rat))) : Int) : Rat) ≤ (LW : Rat) :=
      le_trans hle hsum
    exact_mod_cast hc
  constructor
  · exact Int.le_floor.mpr (by linarith)
  · rw [hfadd]
    have hxfl : (0 : Int) ≤ Int.floor ((X : Rat) / ((RW : Rat) / (LW : Rat))) :=
      Int.le_floor.mpr (by push_cast; linarith)
    linarith

/-- Containment of one rescaled cell within the local cell. -/
theorem resizeCell_within (RW RH : Int) (L cell : ParticipantInfo)
    (hRW : 0 < RW) (hRH : 0 < RH) (hLW : 0 < L.w) (hLH : 0 < L.h)
    (hLx : 0 ≤ L.x) (hLy : 0 ≤ L.y)
    (hx : 0 ≤ cell.x) (hy : 0 ≤ cell.y) (hw : 0 ≤ cell.w) (hh : 0 ≤ cell.h)
    (hxw : cell.x + cell.w ≤ RW) (hyh : cell.y + cell.h ≤ RH) :
    cellWithin L (resizeCell RW RH L cell) = true := by
  have hX := resize_dim_bounds cell.x cell.w RW L.x L.w hx hw hxw hRW hLW hLx
  have hY := resize_dim_bounds cell.y cell.h RH L.y L.h hy hh hyh hRH hLH hLy
  simp only [cellWithin, resizeCell, Bool.and_eq_true, decide_eq_true_eq]
  exact ⟨⟨⟨hX.1, hX.2⟩, hY.1⟩, hY.2⟩

/-- C7 counterexample: for a remote document with positive canvas (10 by
10) but a cell at x = 1000 outside that canvas, the rescaled cell does not
lie within the local cell, so the claim fails without a premise tying the
remote cells to the remote canvas. -/
theorem c7_containment_counterexample :
    0 < rBadC7.w ∧ 0 < rBadC7.h ∧
      ∃ cell2 ∈ (resizeRemoteParticipants lInfoC7 rBadC7 "alice" 0 0).p,
        cellWithin lCellC7 cell2 = false := by
  refine ⟨by decide, by decide,
    resizeCell 10 10 lCellC7 { uri := "dave@z", x := 1000, y := 0, w := 10, h := 10 }, ?_, ?_⟩
  · have hmem : (resizeRemoteParticipants lInfoC7 rBadC7 "alice" 0 0).p
        = [resizeCell 10 10 lCellC7 { uri := "dave@z", x := 1000, y := 0, w := 10, h := 10 }] := by
      simp [resizeRemoteParticipants, lInfoC7, rBadC7, lCellC7, List.find?]
    rw [hmem]
    exact List.mem_singleton.mpr rfl
  · simp only [resizeCell, cellWithin, cppTrunc, lCellC7]
    norm_num [Int.floor_eq_iff]

/-- C7 (amended): for a remote document R with positive canvas whose cells
all lie within that canvas, merged against a found local cell L with
positive extent and nonnegative position, every rescaled cell lies within
L pixel-inclusive (float arithmetic embedded as exact rational arithmetic
with truncation toward zero on the int conversion). -/
theorem c7_rescaled_cells_within_local
    (localInfo R : ConfInfo) (peerURI : String) (fw fh : Int) (L : ParticipantInfo)
    (hRw : 0 < R.w) (hRh : 0 < R.h)
    (hfind : localInfo.p.find? (fun q => q.uri == peerURI) = Option.some L)
    (hLw : 0 < L.w) (hLh : 0 < L.h) (hLx : 0 ≤ L.x) (hLy : 0 ≤ L.y)
    (hcells : ∀ cell ∈ R.p, 0 ≤ cell.x ∧ 0 ≤ cell.y ∧ 0 ≤ cell.w ∧ 0 ≤ cell.h ∧
      cell.x + cell.w ≤ R.w ∧ cell.y + cell.h ≤ R.h) :
    ∀ cell2 ∈ (resizeRemoteParticipants localInfo R peerURI fw fh).p,
      cellWithin L cell2 = true := by
  have hcond : (R.h == 0 || R.w == 0) = false := by
    simp only [Bool.or_eq_false_iff, beq_eq_false_iff_ne]
    omega
  have hres : (resizeRemoteParticipants localInfo R peerURI fw fh).p
      = R.p.map (resizeCell R.w R.h L) := by
    simp only [resizeRemoteParticipants, hcond, Bool.false_eq_true, if_false, hfind,
      Option.getD_some]
  rw [hres]
  intro cell2 hmem
  obtain ⟨cell, hcell, rfl⟩ := List.mem_map.mp hmem
  obtain ⟨h1, h2, h3, h4, h5, h6⟩ := hcells cell hcell
  exact resizeCell_within R.w R.h L cell hRw hRh hLw hLh hLx hLy h1 h2 h3 h4 h5 h6

/-- C7 witness: the amended containment evaluated on a concrete remote
document with two in-canvas cells. -/
theorem c7_rescaled_cells_within_local_witness :
    (0 : Int) < rInfoC7.w ∧
      (∀ cell2 ∈ (resizeRemoteParticipants lInfoC7 rInfoC7 "alice" 0 0).p,
        cellWithin lCellC7 cell2 = true) :=
  ⟨by decide,
   c7_rescaled_cells_within_local lInfoC7 rInfoC7 "alice" 0 0 lCellC7
     (by decide) (by decide) (by decide) (by decide) (by decide) (by decide) (by decide)
     (by decide)⟩

/-- Attached host audio mutedness is just the slot flag when the slot holds
audio. -/
theorem isMediaSourceMuted_audio_attached (c : Conference)
    (hstate : c.confState_ = ConferenceState.ACTIVE_ATTACHED)
    (htype : c.hostAudioSource_.type_ = MediaType.audio) :
    isMediaSourceMuted c MediaType.audio = c.hostAudioSource_.muted_ := by
  simp [isMediaSourceMuted, hstate, htype]

/-- Attached host video mutedness is just the slot flag when the slot holds
video. -/
theorem isMediaSourceMuted_video_attached (c : Conference)
    (hstate : c.confState_ = ConferenceState.ACTIVE_ATTACHED)
    (htype : c.hostVideoSource_.type_ = MediaType.video) :
    isMediaSourceMuted c MediaType.video = c.hostVideoSource_.muted_ := by
  simp [isMediaSourceMuted, hstate, htype]

/-- Evaluation of the audio branch of muteLocalHost when the requested
state differs from the current one. -/
theorem muteLocalHost_audio_flip (c : Conference) (env : Env) (b : Bool)
    (hstate : c.confState_ = ConferenceState.ACTIVE_ATTACHED)
    (htype : c.hostAudioSource_.type_ = MediaType.audio)
    (hmut : c.hostAudioSource_.muted_ = !b) :
    muteLocalHost c env b mediaTypeAudioString
      = ((updateMuted (setLocalHostMuteState c MediaType.audio b) env).1,
         (if isMuted c "host" then []
          else [if b then ConfAction.unbindHost else ConfAction.bindHost])
           ++ [ConfAction.sendConferenceInfos, ConfAction.emitAudioMuted b]) := by
  have hA : isMediaSourceMuted c MediaType.audio = !b :=
    (isMediaSourceMuted_audio_attached c hstate htype).trans hmut
  cases hm : isMuted c "host" <;> cases b <;>
    simp [muteLocalHost, hA, hm, updateMuted]

/-- The audio branch of muteLocalHost is a no-op when the requested state
matches the current one. -/
theorem muteLocalHost_audio_noop (c : Conference) (env : Env) (b : Bool)
    (h : isMediaSourceMuted c MediaType.audio = b) :
    muteLocalHost c env b mediaTypeAudioString = (c, []) := by
  simp [muteLocalHost, h]

/-- Evaluation of the video branch of muteLocalHost when the requested
state differs from the current one and the mixer exists. -/
theorem muteLocalHost_video_flip (c : Conference) (env : Env) (b : Bool)
    (hven : c.videoEnabled_ = true) (hmix : c.videoMixerPresent = true)
    (hstate : c.confState_ = ConferenceState.ACTIVE_ATTACHED)
    (htype : c.hostVideoSource_.type_ = MediaType.video)
    (hmut : c.hostVideoSource_.muted_ = !b) :
    muteLocalHost c env b mediaTypeVideoString
      = (setLocalHostMuteState c MediaType.video b,
         (if b then [ConfAction.mixerStopInput]
          else [ConfAction.mixerSwitchInput c.hostVideoSource_.sourceUri_])
           ++ [ConfAction.emitVideoMuted b]) := by
  have hV : isMediaSourceMuted c MediaType.video = !b :=
    (isMediaSourceMuted_video_attached c hstate htype).trans hmut
  cases b <;>
    simp [muteLocalHost, hV, hven, hmix, switchInput, setLocalHostMuteState,
      mediaTypeAudioString, mediaTypeVideoString]

/-- The video branch of muteLocalHost is a no-op when the requested state
matches the current one. -/
theorem muteLocalHost_video_noop (c : Conference) (env : Env) (b : Bool)
    (hven : c.videoEnabled_ = true)
    (h : isMediaSourceMuted c MediaType.video = b) :
    muteLocalHost c env b mediaTypeVideoString = (c, []) := by
  simp [muteLocalHost, h, hven, mediaTypeAudioString, mediaTypeVideoString]

/-- After an audio flip the host audio mutedness equals the requested
state. -/
theorem isMediaSourceMuted_after_audio_flip (c : Conference) (env : Env) (b : Bool)
    (hstate : c.confState_ = ConferenceState.ACTIVE_ATTACHED)
    (htype : c.hostAudioSource_.type_ = MediaType.audio) :
    isMediaSourceMuted (updateMuted (setLocalHostMuteState c MediaType.audio b) env).1
      MediaType.audio = b := by
  simp [updateMuted, setLocalHostMuteState, isMediaSourceMuted, hstate, htype]

/-- After a video flip the host video mutedness equals the requested
state. -/
theorem isMediaSourceMuted_after_video_flip (c : Conference) (b : Bool)
    (hstate : c.confState_ = ConferenceState.ACTIVE_ATTACHED)
    (htype : c.hostVideoSource_.type_ = MediaType.video) :
    isMediaSourceMuted (setLocalHostMuteState c MediaType.video b) MediaType.video = b := by
  simp [setLocalHostMuteState, isMediaSourceMuted, hstate, htype]

/-- C4: muteLocalHost is idempotent. In ActiveAttached with an unmuted (and
not moderator-muted) host audio source, muting the audio unbinds the host
exactly once and emits AudioMuted(true); an identical second call returns
with no action at all; and symmetrically for the un-mute direction (the
parameter b) and for the video type (stop input / switch input and a
VideoMuted emission, second call a no-op). -/
theorem c4_muteLocalHost_idempotent (c : Conference) (env : Env) (b bv : Bool)
    (hstate : c.confState_ = ConferenceState.ACTIVE_ATTACHED)
    (htype : c.hostAudioSource_.type_ = MediaType.audio)
    (hmut : c.hostAudioSource_.muted_ = !b)
    (hhost : isMuted c "host" = false)
    (hven : c.videoEnabled_ = true)
    (hmix : c.videoMixerPresent = true)
    (hvtype : c.hostVideoSource_.type_ = MediaType.video)
    (hvmut : c.hostVideoSource_.muted_ = !bv) :
    ((muteLocalHost c env b mediaTypeAudioString).2
        = [if b then ConfAction.unbindHost else ConfAction.bindHost,
           ConfAction.sendConferenceInfos, ConfAction.emitAudioMuted b])
      ∧ muteLocalHost (muteLocalHost c env b mediaTypeAudioString).1 env b mediaTypeAudioString
          = ((muteLocalHost c env b mediaTypeAudioString).1, [])
      ∧ ((muteLocalHost c env bv mediaTypeVideoString).2
          = (if bv then [ConfAction.mixerStopInput]
             else [ConfAction.mixerSwitchInput c.hostVideoSource_.sourceUri_])
            ++ [ConfAction.emitVideoMuted bv])
      ∧ muteLocalHost (muteLocalHost c env bv mediaTypeVideoString).1 env bv mediaTypeVideoString
          = ((muteLocalHost c env bv mediaTypeVideoString).1, []) := by
  have hflip := muteLocalHost_audio_flip c env b hstate htype hmut
  have hvflip := muteLocalHost_video_flip c env bv hven hmix hstate hvtype hvmut
  refine ⟨?_, ?_, ?_, ?_⟩
  · rw [hflip]; simp [hhost]
  · rw [hflip]
    exact muteLocalHost_audio_noop _ env b
      (isMediaSourceMuted_after_audio_flip c env b hstate htype)
  · rw [hvflip]
  · rw [hvflip]
    apply muteLocalHost_video_noop
    · simp [setLocalHostMuteState, hven]
    · exact isMediaSourceMuted_after_video_flip c bv hstate hvtype

/-- C4 witness: the idempotence theorem evaluated on the attached fixture,
muting audio and video. -/
theorem c4_muteLocalHost_idempotent_witness :
    isMuted confFix "host" = false
    ∧ (((muteLocalHost confFix envFix true mediaTypeAudioString).2
        = [if true then ConfAction.unbindHost else ConfAction.bindHost,
           ConfAction.sendConferenceInfos, ConfAction.emitAudioMuted true])
      ∧ muteLocalHost (muteLocalHost confFix envFix true mediaTypeAudioString).1 envFix true
            mediaTypeAudioString
          = ((muteLocalHost confFix envFix true mediaTypeAudioString).1, [])
      ∧ ((muteLocalHost confFix envFix true mediaTypeVideoString).2
          = (if true then [ConfAction.mixerStopInput]
             else [ConfAction.mixerSwitchInput confFix.hostVideoSource_.sourceUri_])
            ++ [ConfAction.emitVideoMuted true])
      ∧ muteLocalHost (muteLocalHost confFix envFix true mediaTypeVideoString).1 envFix true
            mediaTypeVideoString
          = ((muteLocalHost confFix envFix true mediaTypeVideoString).1, [])) :=
  ⟨by decide,
   c4_muteLocalHost_idempotent confFix envFix true true (by decide) (by decide) (by decide)
     (by decide) (by decide) (by decide) (by decide) (by decide)⟩

/-- C8: with the host already moderator-muted, an effective
muteLocalHost(b, audio) call performs no ring-buffer rebinding at all (the
trace holds only the broadcast and the signal, no bindHost or unbindHost),
while the host audio flag is updated to b, the rows are refreshed and
broadcast, AudioMuted(b) is emitted, and the moderator-muted set is left
unchanged. -/
theorem c8_muteLocalHost_host_moderator_muted (c : Conference) (env : Env) (b : Bool)
    (hstate : c.confState_ = ConferenceState.ACTIVE_ATTACHED)
    (htype : c.hostAudioSource_.type_ = MediaType.audio)
    (hhost : isMuted c "host" = true)
    (hmut : c.hostAudioSource_.muted_ = !b) :
    ((muteLocalHost c env b mediaTypeAudioString).2
        = [ConfAction.sendConferenceInfos, ConfAction.emitAudioMuted b])
      ∧ (muteLocalHost c env b mediaTypeAudioString).1.hostAudioSource_.muted_ = b
      ∧ (muteLocalHost c env b mediaTypeAudioString).1.participantsMuted_
          = c.participantsMuted_ := by
  rw [muteLocalHost_audio_flip c env b hstate htype hmut]
  simp [hhost, updateMuted, setLocalHostMuteState]

/-- C8 witness: the theorem evaluated on the fixture whose host is
moderator-muted. -/
theorem c8_muteLocalHost_host_moderator_muted_witness :
    isMuted confHostMuted "host" = true
    ∧ (((muteLocalHost confHostMuted envFix true mediaTypeAudioString).2
        = [ConfAction.sendConferenceInfos, ConfAction.emitAudioMuted true])
      ∧ (muteLocalHost confHostMuted envFix true mediaTypeAudioString).1.hostAudioSource_.muted_
          = true
      ∧ (muteLocalHost confHostMuted envFix true mediaTypeAudioString).1.participantsMuted_
          = confHostMuted.participantsMuted_) :=
  ⟨by decide,
   c8_muteLocalHost_host_moderator_muted confHostMuted envFix true (by decide) (by decide)
     (by decide) (by decide)⟩

/-- Emplacing a string already contained leaves the set unchanged. -/
theorem setEmplace_of_contains (l : List String) (x : String) (h : l.contains x = true) :
    setEmplace l x = l := by
  unfold setEmplace
  rw [if_pos h]

/-- Erasing a string not contained leaves the set unchanged. -/
theorem setErase_of_not_contains (l : List String) (x : String) (h : l.contains x = false) :
    setErase l x = l := by
  unfold setErase
  apply List.filter_eq_self.mpr
  intro y hy
  simp only [bne_iff_ne, ne_eq, decide_eq_true_eq]
  intro heq
  subst heq
  simp [List.elem_iff] at h
  exact h hy

/-- The empty URI is never found among remote participants whose stripped
URIs are all nonempty. -/
theorem findHost_empty_of_nonempty_uris (c : Conference)
    (hremote : ∀ h ∈ c.remoteHosts_, ∀ q ∈ h.2.p, string_remove_suffix q.uri ≠ "") :
    findHostforRemoteParticipant c "" = "" := by
  unfold findHostforRemoteParticipant
  have hnone : c.remoteHosts_.find?
      (fun h => h.2.p.any (fun q => "" == string_remove_suffix q.uri)) = Option.none := by
    rw [List.find?_eq_none]
    intro h hmem
    simp only [Bool.not_eq_true, List.any_eq_false]
    intro q hq
    exact beq_eq_false_iff_ne.mpr (fun e => hremote h hmem q hq e.symm)
  rw [hnone]

/-- C9: isHost accepts the empty URI whatever the conference state is;
consequently setActiveParticipant of the empty URI commands the mixer to
set the active host, and muteParticipant of the empty URI takes the host
path, setting the membership of the reserved "host" entry of
participantsMuted to the requested state (provided no remote participant
row carries an empty stripped URI, which would hijack the remote case that
is checked first). -/
theorem c9_empty_uri_host_path (c : Conference) (env : Env) (state : Bool)
    (hmix : c.videoMixerPresent = true)
    (hremote : ∀ h ∈ c.remoteHosts_, ∀ q ∈ h.2.p, string_remove_suffix q.uri ≠ "") :
    isHost c env "" = true
    ∧ setActiveParticipant c env "" = [ConfAction.mixerSetActiveHost]
    ∧ (muteParticipant c env "" state).1.participantsMuted_
        = (if state then setEmplace c.participantsMuted_ "host"
           else setErase c.participantsMuted_ "host") := by
  have hhost : isHost c env "" = true := by simp [isHost]
  have hfind := findHost_empty_of_nonempty_uris c hremote
  refine ⟨hhost, ?_, ?_⟩
  · simp [setActiveParticipant, hmix, hhost]
  · by_cases hm : "host" ∈ c.participantsMuted_
    · have hmc : c.participantsMuted_.contains "host" = true := by simpa using hm
      cases state <;>
        simp [muteParticipant, hfind, hhost, isMuted, hm, hmc, updateMuted,
          setEmplace_of_contains c.participantsMuted_ "host" hmc] <;>
        split <;> rfl
    · have hmc : c.participantsMuted_.contains "host" = false := by simpa using hm
      cases state <;>
        simp [muteParticipant, hfind, hhost, isMuted, hm, hmc, updateMuted,
          setErase_of_not_contains c.participantsMuted_ "host" hmc] <;>
        split <;> rfl

/-- C9 witness: the empty-URI host-path theorem evaluated on the attached
fixture with no remote hosts. -/
theorem c9_empty_uri_host_path_witness :
    confFix.videoMixerPresent = true
    ∧ (isHost confFix envFix "" = true
      ∧ setActiveParticipant confFix envFix "" = [ConfAction.mixerSetActiveHost]
      ∧ (muteParticipant confFix envFix "" true).1.participantsMuted_
          = (if true then setEmplace confFix.participantsMuted_ "host"
             else setErase confFix.participantsMuted_ "host")) :=
  ⟨by decide, c9_empty_uri_host_path confFix envFix true (by decide) (by decide)⟩

/-- C1 counterexample: muting a participant of a remote sub-host forwards
the conf-order to that host and returns without any layout rebroadcast, so
not every muteParticipant case ends with a rebroadcast. -/
theorem c1_muteParticipant_counterexample :
    (muteParticipant confRemote envFix "carol" true).2
        = [ConfAction.sendMuteOrder "c3" "carol" "true"]
    ∧ ConfAction.sendConferenceInfos ∉ (muteParticipant confRemote envFix "carol" true).2 := by
  decide

/-- C1 (amended): muteParticipant has three cases. (a) For a participant of
a remote sub-host whose call and account resolve, the order is forwarded as
a conf-order to that host and nothing else happens, in particular no layout
rebroadcast. (b) For the host the operation always ends with a layout
rebroadcast. (c) For an ordinary participant whose call resolves, the
operation flips the muted entry, unbinds or binds the participant and ends
with a layout rebroadcast exactly when the requested state differs from
the current one, and is a complete no-op otherwise. -/
theorem c1_muteParticipant_cases (c : Conference) (env : Env) (pid : String) (state : Bool) :
    (∀ cid call u, findHostforRemoteParticipant c pid ≠ ""
       → getCallFromPeerID c env (string_remove_suffix (findHostforRemoteParticipant c pid))
           = Option.some (cid, call)
       → call.accountUsername = Option.some u
       → muteParticipant c env pid state
           = (c, [ConfAction.sendMuteOrder cid pid (if state then TRUE_STR else FALSE_STR)]))
    ∧ (findHostforRemoteParticipant c pid = "" → isHost c env pid = true
       → (muteParticipant c env pid state).2.getLast? = Option.some ConfAction.sendConferenceInfos)
    ∧ (∀ cid call, findHostforRemoteParticipant c pid = "" → isHost c env pid = false
       → getCallFromPeerID c env pid = Option.some (cid, call)
       → ((state ≠ isMuted c pid
            → (muteParticipant c env pid state).2
                = [if state then ConfAction.unbindParticipant cid
                   else ConfAction.bindParticipant cid,
                   ConfAction.sendConferenceInfos]
              ∧ (muteParticipant c env pid state).1.participantsMuted_
                = (if state then setEmplace c.participantsMuted_ pid
                   else setErase c.participantsMuted_ pid))
          ∧ (state = isMuted c pid → muteParticipant c env pid state = (c, [])))) := by
  refine ⟨?_, ?_, ?_⟩
  · intro cid call u h1 h2 h3
    simp [muteParticipant, h1, h2, h3]
  · intro h1 h2
    cases hm : isMuted c "host" <;> cases state <;>
      cases hms : isMediaSourceMuted c MediaType.audio <;>
      simp [muteParticipant, h1, h2, hm, hms, updateMuted]
  · intro cid call h1 h2 h3
    constructor
    · intro hne
      cases hs : state <;> rw [hs] at hne <;> cases hm : isMuted c pid <;>
        rw [hm] at hne <;> first
        | exact absurd rfl hne
        | (constructor <;> simp [muteParticipant, h1, h2, h3, hm, updateMuted])
    · intro heq
      cases hs : state <;> rw [hs] at heq <;>
        simp [muteParticipant, h1, h2, h3, heq.symm, updateMuted]

/-- C1 witness: the remote sub-host case of the amended theorem evaluated
on the fixture with a remote host hosting carol. -/
theorem c1_muteParticipant_cases_witness :
    findHostforRemoteParticipant confRemote "carol" ≠ ""
    ∧ muteParticipant confRemote envFix "carol" true
        = (confRemote,
           [ConfAction.sendMuteOrder "c3" "carol" (if true then TRUE_STR else FALSE_STR)]) :=
  ⟨by decide,
   (c1_muteParticipant_cases confRemote envFix "carol" true).1 "c3" callRemote "me"
     (by decide) (by decide) (by decide)⟩

/-- Emplacing makes the element contained. -/
theorem setEmplace_contains_self (l : List String) (x : String) :
    (setEmplace l x).contains x = true := by
  unfold setEmplace
  split
  · assumption
  · simpa using Or.inr rfl

/-- Erasing removes the element. -/
theorem setErase_contains_self (l : List String) (x : String) :
    (setErase l x).contains x = false := by
  unfold setErase
  simp [List.elem_iff, List.mem_filter]

/-- isHost only reads the participant list (and the environment). -/
theorem isHost_congr (c1 c2 : Conference) (env : Env) (uri : String)
    (h : c1.participants_ = c2.participants_) :
    isHost c1 env uri = isHost c2 env uri := by
  unfold isHost
  rw [h]

/-- setHandRaised touches only handsRaised_ and confInfo_: all other fields
of the conference survive unchanged. -/
theorem setHandRaised_fields (c : Conference) (env : Env) (pid : String) (st : Bool) :
    (setHandRaised c env pid st).1.moderators_ = c.moderators_
    ∧ (setHandRaised c env pid st).1.participants_ = c.participants_
    ∧ (setHandRaised c env pid st).1.participantsMuted_ = c.participantsMuted_
    ∧ (setHandRaised c env pid st).1.confState_ = c.confState_
    ∧ (setHandRaised c env pid st).1.remoteHosts_ = c.remoteHosts_
    ∧ (setHandRaised c env pid st).1.hostAudioSource_ = c.hostAudioSource_
    ∧ (setHandRaised c env pid st).1.hostVideoSource_ = c.hostVideoSource_
    ∧ (setHandRaised c env pid st).1.videoEnabled_ = c.videoEnabled_
    ∧ (setHandRaised c env pid st).1.videoMixerPresent = c.videoMixerPresent := by
  refine ⟨?_, ?_, ?_, ?_, ?_, ?_, ?_, ?_, ?_⟩ <;>
    (simp only [setHandRaised, updateHandsRaised]
     repeat' split
     all_goals rfl)

/-- Every action emitted by setHandRaised is the layout broadcast. -/
theorem setHandRaised_acts (c : Conference) (env : Env) (pid : String) (st : Bool) :
    ∀ act ∈ (setHandRaised c env pid st).2, act = ConfAction.sendConferenceInfos := by
  simp only [setHandRaised, updateHandsRaised]
  repeat' split
  all_goals simp

/-- Membership form of setEmplace_contains_self. -/
theorem mem_setEmplace_self (l : List String) (x : String) : x ∈ setEmplace l x := by
  have h := setEmplace_contains_self l x
  simpa using h

/-- Membership form of setErase_contains_self. -/
theorem not_mem_setErase_self (l : List String) (x : String) : x ∉ setErase l x := by
  have h := setErase_contains_self l x
  simpa using h

/-- isHandRaised of the literal "host" reads the "host" entry in either
branch. -/
theorem isHandRaised_host_literal (c : Conference) (env : Env) :
    isHandRaised c env "host" = c.handsRaised_.contains "host" := by
  unfold isHandRaised
  split <;> rfl

/-- isModerator only reads moderators_ and participants_. -/
theorem isModerator_congr (c1 c2 : Conference) (env : Env) (uri : String)
    (hm : c1.moderators_ = c2.moderators_) (hp : c1.participants_ = c2.participants_) :
    isModerator c1 env uri = isModerator c2 env uri := by
  unfold isModerator
  rw [hm, isHost_congr c1 c2 env uri hp]

/-- Correctness of setHandRaised: when the target is the host or a found
participant, the hand-raised state afterwards equals the requested one. -/
theorem isHandRaised_setHandRaised (c : Conference) (env : Env) (pid : String) (st : Bool)
    (hfound : isHost c env pid = true
      ∨ (c.participants_.findSome? (fun q =>
           match getCall env q with
           | Option.some call =>
             if pid == string_remove_suffix call.peerNumber then Option.some call
             else Option.none
           | Option.none => Option.none)).isSome = true) :
    isHandRaised (setHandRaised c env pid st).1 env pid = st := by
  have hp := (setHandRaised_fields c env pid st).2.1
  have hhost : isHost (setHandRaised c env pid st).1 env pid = isHost c env pid :=
    isHost_congr _ c env pid hp
  unfold isHandRaised
  rw [hhost]
  by_cases hh : isHost c env pid = true
  · rw [if_pos hh]
    by_cases hr : "host" ∈ c.handsRaised_ <;> cases st <;>
      simp [setHandRaised, updateHandsRaised, hh, isHandRaised_host_literal, hr,
        mem_setEmplace_self, not_mem_setErase_self]
  · have hh2 : isHost c env pid = false := by
      revert hh
      cases isHost c env pid <;> simp
    rw [if_neg hh]
    have hIH : isHandRaised c env pid = c.handsRaised_.contains pid := by
      unfold isHandRaised
      rw [if_neg hh]
    rcases hfound with hf | hf
    · exact absurd hf hh
    · cases hfs : c.participants_.findSome? (fun q =>
          match getCall env q with
          | Option.some call =>
            if pid == string_remove_suffix call.peerNumber then Option.some call
            else Option.none
          | Option.none => Option.none) with
      | none => rw [hfs] at hf; simp at hf
      | some call =>
        simp only [setHandRaised]
        rw [if_neg hh, hfs]
        by_cases hr : pid ∈ c.handsRaised_ <;> cases st <;>
          simp [updateHandsRaised, hIH, hr,
            mem_setEmplace_self, not_mem_setErase_self]

/-- The hand stage never changes who is a moderator. -/
theorem handRaisedStage_isModerator (c : Conference) (env : Env) (peerID : String)
    (o : ConfOrder) (uri : String) :
    isModerator (handRaisedStage c env peerID o).1 env uri = isModerator c env uri := by
  have hmod : ∀ u stt, isModerator (setHandRaised c env u stt).1 env uri
      = isModerator c env uri := fun u stt =>
    isModerator_congr (setHandRaised c env u stt).1 c env uri
      (setHandRaised_fields c env u stt).1 (setHandRaised_fields c env u stt).2.1
  cases ho : o.handRaised with
  | none => simp [handRaisedStage, ho]
  | some u =>
    simp only [handRaisedStage, ho]
    repeat' split
    all_goals first
      | rfl
      | exact hmod _ _

/-- The hand stage touches only handsRaised_ and confInfo_. -/
theorem handRaisedStage_fields (c : Conference) (env : Env) (peerID : String) (o : ConfOrder) :
    (handRaisedStage c env peerID o).1.participantsMuted_ = c.participantsMuted_
    ∧ (handRaisedStage c env peerID o).1.moderators_ = c.moderators_
    ∧ (handRaisedStage c env peerID o).1.remoteHosts_ = c.remoteHosts_ := by
  cases ho : o.handRaised with
  | none => simp [handRaisedStage, ho]
  | some u =>
    simp only [handRaisedStage, ho]
    refine ⟨?_, ?_, ?_⟩ <;> (repeat' split) <;>
      first
        | rfl
        | exact (setHandRaised_fields c env _ _).2.2.1
        | exact (setHandRaised_fields c env _ _).1
        | exact (setHandRaised_fields c env _ _).2.2.2.2.1

/-- Every action the hand stage emits is the layout broadcast. -/
theorem handRaisedStage_acts (c : Conference) (env : Env) (peerID : String) (o : ConfOrder) :
    ∀ act ∈ (handRaisedStage c env peerID o).2, act = ConfAction.sendConferenceInfos := by
  cases ho : o.handRaised with
  | none => simp [handRaisedStage, ho]
  | some u =>
    simp only [handRaisedStage, ho]
    repeat' split
    all_goals first
      | simp
      | exact setHandRaised_acts c env _ _

/-- C2: conf-orders from a non-moderator. The whole call reduces to the
hand-raise stage: a handRaised member naming the sender updates the sender
hand state to the decoded handState, a handRaised member naming anyone else
does nothing, every layout, activeParticipant, muteParticipant and
hangupParticipant member is dropped with no state change (the moderator
sets, mute set and remote hosts are untouched and the only possible action
is the hand-raise layout broadcast); any peer, moderator or not, cannot
raise another hand (handState true on another URI does nothing); and for a
moderator sender the remaining members are processed in the order
handRaised, layout, activeParticipant, muteParticipant, hangupParticipant. -/
theorem c2_onConfOrder_nonmoderator (c : Conference) (env : Env) (callId : String)
    (o : ConfOrder) (call : Call)
    (hcall : getCall env callId = Option.some call)
    (hnm : isModerator c env (string_remove_suffix call.peerNumber) = false) :
    (onConfOrder c env callId o
        = handRaisedStage c env (string_remove_suffix call.peerNumber) o)
    ∧ (o.handRaised = Option.some (string_remove_suffix call.peerNumber)
        → onConfOrder c env callId o
            = setHandRaised c env (string_remove_suffix call.peerNumber)
                ((o.handState.getD "") == TRUE_STR))
    ∧ (o.handRaised = Option.some (string_remove_suffix call.peerNumber)
        → (isHost c env (string_remove_suffix call.peerNumber) = true
            ∨ (c.participants_.findSome? (fun q =>
                 match getCall env q with
                 | Option.some call2 =>
                   if string_remove_suffix call.peerNumber
                       == string_remove_suffix call2.peerNumber then Option.some call2
                   else Option.none
                 | Option.none => Option.none)).isSome = true)
        → isHandRaised (onConfOrder c env callId o).1 env
              (string_remove_suffix call.peerNumber)
            = ((o.handState.getD "") == TRUE_STR))
    ∧ (∀ uri, o.handRaised = Option.some uri → uri ≠ string_remove_suffix call.peerNumber
        → onConfOrder c env callId o = (c, []))
    ∧ (onConfOrder c env callId o).1.participantsMuted_ = c.participantsMuted_
    ∧ (onConfOrder c env callId o).1.moderators_ = c.moderators_
    ∧ (onConfOrder c env callId o).1.remoteHosts_ = c.remoteHosts_
    ∧ (∀ act ∈ (onConfOrder c env callId o).2, act = ConfAction.sendConferenceInfos)
    ∧ (∀ c2 : Conference, ∀ uri, o.handRaised = Option.some uri
        → uri ≠ string_remove_suffix call.peerNumber
        → ((o.handState.getD "") == TRUE_STR) = true
        → handRaisedStage c2 env (string_remove_suffix call.peerNumber) o = (c2, []))
    ∧ (∀ c2 : Conference, isModerator c2 env (string_remove_suffix call.peerNumber) = true
        → onConfOrder c2 env callId o
            = ((hangupStage (muteStage (activeStage (layoutStage
                  (handRaisedStage c2 env (string_remove_suffix call.peerNumber) o).1 o).1
                  env o).1 env o).1 env o).1,
               (handRaisedStage c2 env (string_remove_suffix call.peerNumber) o).2
                 ++ (layoutStage
                      (handRaisedStage c2 env (string_remove_suffix call.peerNumber) o).1 o).2
                 ++ (activeStage (layoutStage
                      (handRaisedStage c2 env (string_remove_suffix call.peerNumber) o).1 o).1
                      env o).2
                 ++ (muteStage (activeStage (layoutStage
                      (handRaisedStage c2 env (string_remove_suffix call.peerNumber) o).1 o).1
                      env o).1 env o).2
                 ++ (hangupStage (muteStage (activeStage (layoutStage
                      (handRaisedStage c2 env (string_remove_suffix call.peerNumber) o).1 o).1
                      env o).1 env o).1 env o).2)) := by
  have hmain : onConfOrder c env callId o
      = handRaisedStage c env (string_remove_suffix call.peerNumber) o := by
    have hmod := handRaisedStage_isModerator c env (string_remove_suffix call.peerNumber) o
      (string_remove_suffix call.peerNumber)
    simp only [onConfOrder, hcall]
    simp [hmod, hnm]
  refine ⟨hmain, ?_, ?_, ?_, ?_, ?_, ?_, ?_, ?_, ?_⟩
  · intro h
    rw [hmain]
    simp [handRaisedStage, h]
  · intro h hf
    have hstage : handRaisedStage c env (string_remove_suffix call.peerNumber) o
        = setHandRaised c env (string_remove_suffix call.peerNumber)
            ((o.handState.getD "") == TRUE_STR) := by
      simp [handRaisedStage, h]
    rw [hmain, hstage]
    exact isHandRaised_setHandRaised c env _ _ hf
  · intro uri h hne
    rw [hmain]
    have h1 : ((string_remove_suffix call.peerNumber == uri)) = false :=
      beq_eq_false_iff_ne.mpr (fun e => hne e.symm)
    simp [handRaisedStage, h, h1, hnm]
  · rw [hmain]
    exact (handRaisedStage_fields c env _ o).1
  · rw [hmain]
    exact (handRaisedStage_fields c env _ o).2.1
  · rw [hmain]
    exact (handRaisedStage_fields c env _ o).2.2
  · rw [hmain]
    exact handRaisedStage_acts c env _ o
  · intro c2 uri h hne htrue
    have h1 : ((string_remove_suffix call.peerNumber == uri)) = false :=
      beq_eq_false_iff_ne.mpr (fun e => hne e.symm)
    simp [handRaisedStage, h, h1, htrue]
  · intro c2 hmod2
    have hmod3 : isModerator
        (handRaisedStage c2 env (string_remove_suffix call.peerNumber) o).1 env
        (string_remove_suffix call.peerNumber) = true := by
      rw [handRaisedStage_isModerator]
      exact hmod2
    simp only [onConfOrder, hcall, hmod3]
    simp

/-- C2 witness: the non-moderator theorem evaluated for bob (not a
moderator of the fixture conference) sending a message carrying every
member at once. -/
theorem c2_onConfOrder_nonmoderator_witness :
    isModerator confFix envFix (string_remove_suffix callBob.peerNumber) = false
    ∧ ((onConfOrder confFix envFix "c2" orderFix
        = handRaisedStage confFix envFix (string_remove_suffix callBob.peerNumber) orderFix)
      ∧ (orderFix.handRaised = Option.some (string_remove_suffix callBob.peerNumber)
          → onConfOrder confFix envFix "c2" orderFix
              = setHandRaised confFix envFix (string_remove_suffix callBob.peerNumber)
                  ((orderFix.handState.getD "") == TRUE_STR))
      ∧ (orderFix.handRaised = Option.some (string_remove_suffix callBob.peerNumber)
          → (isHost confFix envFix (string_remove_suffix callBob.peerNumber) = true
              ∨ (confFix.participants_.findSome? (fun q =>
                   match getCall envFix q with
                   | Option.some call2 =>
                     if string_remove_suffix callBob.peerNumber
                         == string_remove_suffix call2.peerNumber then Option.some call2
                     else Option.none
                   | Option.none => Option.none)).isSome = true)
          → isHandRaised (onConfOrder confFix envFix "c2" orderFix).1 envFix
                (string_remove_suffix callBob.peerNumber)
              = ((orderFix.handState.getD "") == TRUE_STR))
      ∧ (∀ uri, orderFix.handRaised = Option.some uri
          → uri ≠ string_remove_suffix callBob.peerNumber
          → onConfOrder confFix envFix "c2" orderFix = (confFix, []))
      ∧ (onConfOrder confFix envFix "c2" orderFix).1.participantsMuted_
          = confFix.participantsMuted_
      ∧ (onConfOrder confFix envFix "c2" orderFix).1.moderators_ = confFix.moderators_
      ∧ (onConfOrder confFix envFix "c2" orderFix).1.remoteHosts_ = confFix.remoteHosts_
      ∧ (∀ act ∈ (onConfOrder confFix envFix "c2" orderFix).2,
          act = ConfAction.sendConferenceInfos)
      ∧ (∀ c2 : Conference, ∀ uri, orderFix.handRaised = Option.some uri
          → uri ≠ string_remove_suffix callBob.peerNumber
          → ((orderFix.handState.getD "") == TRUE_STR) = true
          → handRaisedStage c2 envFix (string_remove_suffix callBob.peerNumber) orderFix
              = (c2, []))
      ∧ (∀ c2 : Conference,
          isModerator c2 envFix (string_remove_suffix callBob.peerNumber) = true
          → onConfOrder c2 envFix "c2" orderFix
              = ((hangupStage (muteStage (activeStage (layoutStage
                    (handRaisedStage c2 envFix (string_remove_suffix callBob.peerNumber)
                      orderFix).1 orderFix).1
                    envFix orderFix).1 envFix orderFix).1 envFix orderFix).1,
                 (handRaisedStage c2 envFix (string_remove_suffix callBob.peerNumber)
                    orderFix).2
                   ++ (layoutStage
                        (handRaisedStage c2 envFix (string_remove_suffix callBob.peerNumber)
                          orderFix).1 orderFix).2
                   ++ (activeStage (layoutStage
                        (handRaisedStage c2 envFix (string_remove_suffix callBob.peerNumber)
                          orderFix).1 orderFix).1
                        envFix orderFix).2
                   ++ (muteStage (activeStage (layoutStage
                        (handRaisedStage c2 envFix (string_remove_suffix callBob.peerNumber)
                          orderFix).1 orderFix).1
                        envFix orderFix).1 envFix orderFix).2
                   ++ (hangupStage (muteStage (activeStage (layoutStage
                        (handRaisedStage c2 envFix (string_remove_suffix callBob.peerNumber)
                          orderFix).1 orderFix).1
                        envFix orderFix).1 envFix orderFix).1 envFix orderFix).2))) :=
  ⟨by decide,
   c2_onConfOrder_nonmoderator confFix envFix "c2" orderFix callBob (by decide) (by decide)⟩

/-- C10: a handRaised member whose handState member is absent or anything
other than the literal "true" decodes to the lower-hand state: the whole
message is processed exactly as if it carried handState "false" (so it is
not dropped and the remaining members still run), and when the member names
the sender and the sender resolves, the hand ends lowered. -/
theorem c10_handState_default_lower (c : Conference) (env : Env) (callId : String)
    (o : ConfOrder) (hs : (o.handState.getD "") ≠ TRUE_STR) :
    onConfOrder c env callId o
        = onConfOrder c env callId { o with handState := Option.some FALSE_STR }
    ∧ ((o.handState.getD "") == TRUE_STR) = false
    ∧ (∀ call, getCall env callId = Option.some call
        → o.handRaised = Option.some (string_remove_suffix call.peerNumber)
        → (isHost c env (string_remove_suffix call.peerNumber) = true
            ∨ (c.participants_.findSome? (fun q =>
                 match getCall env q with
                 | Option.some call2 =>
                   if string_remove_suffix call.peerNumber
                       == string_remove_suffix call2.peerNumber then Option.some call2
                   else Option.none
                 | Option.none => Option.none)).isSome = true)
        → isHandRaised (handRaisedStage c env (string_remove_suffix call.peerNumber) o).1
            env (string_remove_suffix call.peerNumber) = false) := by
  have hb : ((o.handState.getD "") == TRUE_STR) = false := beq_eq_false_iff_ne.mpr hs
  have hb2 : (((Option.some FALSE_STR).getD "" : String) == TRUE_STR) = false := by decide
  have hstage : ∀ c2 p, handRaisedStage c2 env p o
      = handRaisedStage c2 env p { o with handState := Option.some FALSE_STR } := by
    intro c2 p
    cases ho : o.handRaised <;>
      simp [handRaisedStage, ho, hb, hb2,
        (show (FALSE_STR == TRUE_STR) = false by decide),
        (show FALSE_STR ≠ TRUE_STR by decide)]
  refine ⟨?_, hb, ?_⟩
  · cases hc : getCall env callId with
    | none => simp only [onConfOrder, hc]
    | some call =>
      simp only [onConfOrder, hc]
      rw [hstage c (string_remove_suffix call.peerNumber)]
      exact rfl
  · intro call hc h hf
    have hstage2 : handRaisedStage c env (string_remove_suffix call.peerNumber) o
        = setHandRaised c env (string_remove_suffix call.peerNumber)
            ((o.handState.getD "") == TRUE_STR) := by
      simp [handRaisedStage, h]
    rw [hstage2, isHandRaised_setHandRaised c env _ _ hf]
    exact hb

/-- C10 witness: the theorem evaluated on a message whose handState is the
unrecognised string "maybe". -/
theorem c10_handState_default_lower_witness :
    (orderOdd.handState.getD "") ≠ TRUE_STR
    ∧ (onConfOrder confFix envFix "c2" orderOdd
          = onConfOrder confFix envFix "c2" { orderOdd with handState := Option.some FALSE_STR }
      ∧ ((orderOdd.handState.getD "") == TRUE_STR) = false
      ∧ (∀ call, getCall envFix "c2" = Option.some call
          → orderOdd.handRaised = Option.some (string_remove_suffix call.peerNumber)
          → (isHost confFix envFix (string_remove_suffix call.peerNumber) = true
              ∨ (confFix.participants_.findSome? (fun q =>
                   match getCall envFix q with
                   | Option.some call2 =>
                     if string_remove_suffix call.peerNumber
                         == string_remove_suffix call2.peerNumber then Option.some call2
                     else Option.none
                   | Option.none => Option.none)).isSome = true)
          → isHandRaised
              (handRaisedStage confFix envFix (string_remove_suffix call.peerNumber) orderOdd).1
              envFix (string_remove_suffix call.peerNumber) = false)) :=
  ⟨by decide, c10_handState_default_lower confFix envFix "c2" orderOdd (by decide)⟩

/-- updateMuted leaves the host audio slot untouched. -/
theorem updateMuted_hostAudio (c : Conference) (env : Env) :
    (updateMuted c env).1.hostAudioSource_ = c.hostAudioSource_ := rfl

/-- setLocalHostMuteState only flips a muted flag, never a source URI. -/
theorem setLocalHostMuteState_sourceUri (c : Conference) (t : MediaType) (b : Bool) :
    (setLocalHostMuteState c t b).hostAudioSource_.sourceUri_
      = c.hostAudioSource_.sourceUri_ := by
  unfold setLocalHostMuteState
  split_ifs <;> rfl

/-- setLocalHostMuteState leaves videoEnabled_ alone. -/
theorem setLocalHostMuteState_videoEnabled (c : Conference) (t : MediaType) (b : Bool) :
    (setLocalHostMuteState c t b).videoEnabled_ = c.videoEnabled_ := by
  unfold setLocalHostMuteState
  split_ifs <;> rfl

/-- setLocalHostMuteState leaves videoMixerPresent alone. -/
theorem setLocalHostMuteState_videoMixerPresent (c : Conference) (t : MediaType) (b : Bool) :
    (setLocalHostMuteState c t b).videoMixerPresent = c.videoMixerPresent := by
  unfold setLocalHostMuteState
  split_ifs <;> rfl

/-- muteLocalHost never changes the host audio source URI. -/
theorem muteLocalHost_hostAudio_sourceUri (c : Conference) (env : Env) (b : Bool) (s : String) :
    (muteLocalHost c env b s).1.hostAudioSource_.sourceUri_
      = c.hostAudioSource_.sourceUri_ := by
  simp only [muteLocalHost]
  split_ifs <;>
    simp_all [updateMuted_hostAudio, setLocalHostMuteState_sourceUri,
      setLocalHostMuteState_videoEnabled, setLocalHostMuteState_videoMixerPresent, switchInput]

/-- switchInput never changes the host audio source URI. -/
theorem switchInput_hostAudio_sourceUri (c : Conference) (input : String) :
    (switchInput c input).1.hostAudioSource_.sourceUri_
      = c.hostAudioSource_.sourceUri_ := by
  simp only [switchInput]
  split_ifs
  all_goals rfl

/-- The requestMediaChange loop returns false whenever the attribute list
carries an audio attribute with a requested source change; the host audio
source URI is never modified along the way. -/
theorem requestMediaChangeLoop_audio_reject (env : Env) :
    ∀ (c : Conference) (attrs : List MediaAttribute),
    (∃ attr ∈ attrs, attr.type_ = MediaType.audio ∧ attr.sourceUri_ ≠ ""
       ∧ attr.sourceUri_ ≠ c.hostAudioSource_.sourceUri_)
    → (requestMediaChangeLoop env c attrs).1 = false := by
  intro c attrs
  induction attrs generalizing c with
  | nil =>
    rintro ⟨attr, hmem, _⟩
    cases hmem
  | cons a rest ih =>
    rintro ⟨attr, hmem, htype, hne, hsrc⟩
    rcases List.mem_cons.mp hmem with rfl | hmem2
    · have hsrcb : hostSourceFor c attr.type_ = c.hostAudioSource_ := by
        simp [hostSourceFor, htype]
      have h1 : (attr.sourceUri_ != "") = true := bne_iff_ne.mpr hne
      have h2 : (c.hostAudioSource_.sourceUri_ != attr.sourceUri_) = true :=
        bne_iff_ne.mpr (fun e => hsrc e.symm)
      have h3 : (attr.type_ != MediaType.video) = true := by
        rw [htype]
        decide
      simp only [requestMediaChangeLoop, hsrcb, h1, h2, h3]
      simp
    · have hpres : ∀ d : Conference,
          d.hostAudioSource_.sourceUri_ = c.hostAudioSource_.sourceUri_
          → (requestMediaChangeLoop env d rest).1 = false := by
        intro d hd
        refine ih d ⟨attr, hmem2, htype, hne, ?_⟩
        rw [hd]
        exact hsrc
      simp only [requestMediaChangeLoop]
      split
      · rfl
      · refine hpres _ ?_
        repeat' split
        all_goals
          simp [muteLocalHost_hostAudio_sourceUri, switchInput_hostAudio_sourceUri]

/-- C5: requestMediaChange returns false and changes nothing when the
conference is not attached; it returns false when the list carries more
than one stream of one media type; and it returns false when the list
requests a source-URI change on an audio (non-video) attribute. -/
theorem c5_requestMediaChange_rejections (c : Conference) (env : Env)
    (mediaList : List MediaMap) :
    (c.confState_ ≠ ConferenceState.ACTIVE_ATTACHED
       → requestMediaChange c env mediaList = (false, c, []))
    ∧ ((((buildMediaAttributesList mediaList).filter
          (fun attr => attr.type_ == MediaType.audio)).length > 1
        ∨ ((buildMediaAttributesList mediaList).filter
          (fun attr => attr.type_ == MediaType.video)).length > 1)
       → (requestMediaChange c env mediaList).1 = false)
    ∧ (∀ attr ∈ buildMediaAttributesList mediaList,
        attr.type_ = MediaType.audio → attr.sourceUri_ ≠ ""
        → attr.sourceUri_ ≠ c.hostAudioSource_.sourceUri_
        → (requestMediaChange c env mediaList).1 = false) := by
  refine ⟨?_, ?_, ?_⟩
  · intro h
    simp [requestMediaChange, h]
  · intro h
    simp only [requestMediaChange]
    split
    · rfl
    · split
      · rfl
      · rename_i hcond
        exfalso
        simp only [Bool.or_eq_true, decide_eq_true_eq, not_or] at hcond
        rcases h with h | h
        · exact absurd h (by omega)
        · exact absurd h (by omega)
  · intro attr hmem htype hne hsrc
    simp only [requestMediaChange]
    split
    · rfl
    · split
      · rfl
      · exact requestMediaChangeLoop_audio_reject env c _ ⟨attr, hmem, htype, hne, hsrc⟩

/-- C5 witness: the three rejection clauses evaluated concretely: a
detached conference, a two-audio request on the attached fixture, and an
audio source-change request on the attached fixture. -/
theorem c5_requestMediaChange_rejections_witness :
    confDetached.confState_ ≠ ConferenceState.ACTIVE_ATTACHED
    ∧ requestMediaChange confDetached envFix twoAudioMaps = (false, confDetached, [])
    ∧ (((buildMediaAttributesList twoAudioMaps).filter
          (fun attr => attr.type_ == MediaType.audio)).length > 1
        ∨ ((buildMediaAttributesList twoAudioMaps).filter
          (fun attr => attr.type_ == MediaType.video)).length > 1)
    ∧ (requestMediaChange confFix envFix twoAudioMaps).1 = false
    ∧ parseMediaMap [("MEDIA_TYPE", "MEDIA_AUDIO"), ("ENABLED", "true"), ("MUTED", "false"),
        ("SOURCE", "mic://external"), ("LABEL", "audio_0")]
        ∈ buildMediaAttributesList audioSrcChangeMaps
    ∧ (requestMediaChange confFix envFix audioSrcChangeMaps).1 = false :=
  ⟨by decide,
   (c5_requestMediaChange_rejections confDetached envFix twoAudioMaps).1 (by decide),
   by decide,
   (c5_requestMediaChange_rejections confFix envFix twoAudioMaps).2.1 (by decide),
   by decide,
   (c5_requestMediaChange_rejections confFix envFix audioSrcChangeMaps).2.2
     (parseMediaMap [("MEDIA_TYPE", "MEDIA_AUDIO"), ("ENABLED", "true"), ("MUTED", "false"),
        ("SOURCE", "mic://external"), ("LABEL", "audio_0")])
     (by decide) (by decide) (by decide) (by decide)⟩

/-- Un-muting a stream does not change which predicate it satisfies. -/
theorem mediaSourcePred_unmute (t : MediaType) (a : MediaAttribute) :
    mediaSourcePred t { a with muted_ := false } = mediaSourcePred t a := rfl

/-- A stream matching one type predicate fails the other type predicate. -/
theorem mediaSourcePred_ne (t1 t2 : MediaType) (h : t1 ≠ t2) (a : MediaAttribute)
    (h1 : mediaSourcePred t1 a = true) : mediaSourcePred t2 a = false := by
  have ht1 : a.type_ = t1 := by
    cases hx : a.type_ == t1 with
    | true => exact eq_of_beq hx
    | false =>
      unfold mediaSourcePred at h1
      rw [hx] at h1
      simp at h1
  unfold mediaSourcePred
  rw [ht1]
  simp [beq_eq_false_iff_ne.mpr h]

/-- Un-muting the first match of one type leaves the first match of the
other type untouched. -/
theorem find_unmuteFirst_ne (ml : List MediaAttribute) (t1 t2 : MediaType) (h : t1 ≠ t2) :
    (unmuteFirst ml t1).find? (mediaSourcePred t2) = ml.find? (mediaSourcePred t2) := by
  induction ml with
  | nil => rfl
  | cons a rest ih =>
    unfold unmuteFirst
    by_cases hp : mediaSourcePred t1 a = true
    · rw [if_pos hp]
      have h3 : mediaSourcePred t2 a = false := mediaSourcePred_ne t1 t2 h a hp
      have h2 : mediaSourcePred t2 ({ a with muted_ := false }) = false := by
        rw [mediaSourcePred_unmute]
        exact h3
      simp [List.find?, h2, h3]
    · have hp2 : mediaSourcePred t1 a = false := by
        revert hp
        cases mediaSourcePred t1 a <;> simp
      rw [if_neg hp]
      cases hq : mediaSourcePred t2 a <;> simp [List.find?, hq, ih]

/-- The first match of the un-muted list is the un-muted first match. -/
theorem find_unmuteFirst_self (ml : List MediaAttribute) (t : MediaType) :
    (unmuteFirst ml t).find? (mediaSourcePred t)
      = (ml.find? (mediaSourcePred t)).map (fun a => { a with muted_ := false }) := by
  induction ml with
  | nil => rfl
  | cons a rest ih =>
    unfold unmuteFirst
    by_cases hp : mediaSourcePred t a = true
    · rw [if_pos hp]
      have h2 : mediaSourcePred t ({ a with muted_ := false }) = true := by
        rw [mediaSourcePred_unmute]
        exact hp
      simp [List.find?, h2, hp]
    · have hp2 : mediaSourcePred t a = false := by
        revert hp
        cases mediaSourcePred t a <;> simp
      rw [if_neg hp]
      simp [List.find?, hp2, ih]

/-- When nothing matches, unmuteFirst is the identity. -/
theorem unmuteFirst_of_find_none (ml : List MediaAttribute) (t : MediaType)
    (h : ml.find? (mediaSourcePred t) = Option.none) : unmuteFirst ml t = ml := by
  induction ml with
  | nil => rfl
  | cons a rest ih =>
    unfold unmuteFirst
    rcases List.find?_eq_none.mp h a (List.mem_cons_self a rest) with hp
    have hp2 : mediaSourcePred t a = false := by
      revert hp
      cases mediaSourcePred t a <;> simp
    rw [if_neg (by simp [hp2])]
    rw [ih]
    rw [List.find?_cons_of_neg _ (by simp [hp2])] at h
    exact h

/-- The list side of takeOverType is always the unmuteFirst image. -/
theorem takeOverType_snd (c : Conference) (ml : List MediaAttribute) (t : MediaType) :
    (takeOverType c ml t).2 = unmuteFirst ml t := by
  unfold takeOverType
  cases h : ml.find? (mediaSourcePred t) with
  | none => exact (unmuteFirst_of_find_none ml t h).symm
  | some a => rfl

/-- setLocalHostMuteState leaves the participant list alone. -/
theorem setLocalHostMuteState_participants (c : Conference) (t : MediaType) (b : Bool) :
    (setLocalHostMuteState c t b).participants_ = c.participants_ := by
  unfold setLocalHostMuteState
  split_ifs <;> rfl

/-- setLocalHostMuteState leaves the conference state alone. -/
theorem setLocalHostMuteState_confState (c : Conference) (t : MediaType) (b : Bool) :
    (setLocalHostMuteState c t b).confState_ = c.confState_ := by
  unfold setLocalHostMuteState
  split_ifs <;> rfl

/-- takeOverType of the video type never touches the audio slot. -/
theorem takeOverType_video_hostAudio (c : Conference) (ml : List MediaAttribute) :
    (takeOverType c ml MediaType.video).1.hostAudioSource_ = c.hostAudioSource_ := by
  unfold takeOverType
  cases h : ml.find? (mediaSourcePred MediaType.video) with
  | none => rfl
  | some a =>
    simp only []
    split_ifs <;> rfl

/-- takeOverType of the audio type never touches the video slot. -/
theorem takeOverType_audio_hostVideo (c : Conference) (ml : List MediaAttribute) :
    (takeOverType c ml MediaType.audio).1.hostVideoSource_ = c.hostVideoSource_ := by
  unfold takeOverType
  cases h : ml.find? (mediaSourcePred MediaType.audio) with
  | none => rfl
  | some a =>
    simp only []
    split_ifs <;> rfl

/-- takeOverType leaves the conference state alone. -/
theorem takeOverType_confState (c : Conference) (ml : List MediaAttribute) (t : MediaType) :
    (takeOverType c ml t).1.confState_ = c.confState_ := by
  unfold takeOverType
  cases h : ml.find? (mediaSourcePred t) with
  | none => rfl
  | some a =>
    simp only []
    split_ifs <;> simp [setLocalHostMuteState_confState]

/-- takeOverType leaves the participant list alone. -/
theorem takeOverType_participants (c : Conference) (ml : List MediaAttribute) (t : MediaType) :
    (takeOverType c ml t).1.participants_ = c.participants_ := by
  unfold takeOverType
  cases h : ml.find? (mediaSourcePred t) with
  | none => rfl
  | some a =>
    simp only []
    split_ifs <;> simp [setLocalHostMuteState_participants]

/-- Attached-mode mute propagation of takeOverType for the audio type. -/
theorem takeOverType_audio_muted (c : Conference) (ml : List MediaAttribute)
    (a : MediaAttribute) (hstate : c.confState_ = ConferenceState.ACTIVE_ATTACHED)
    (ha : ml.find? (mediaSourcePred MediaType.audio) = Option.some a) :
    (takeOverType c ml MediaType.audio).1.hostAudioSource_.muted_
      = (if c.participants_.length == 1 then a.muted_
         else a.muted_ && isMediaSourceMuted c MediaType.audio) := by
  unfold takeOverType
  rw [ha]
  simp only []
  rw [if_pos (by rw [hstate]; rfl)]
  split_ifs <;> rfl

/-- Attached-mode mute propagation of takeOverType for the video type. -/
theorem takeOverType_video_muted (c : Conference) (ml : List MediaAttribute)
    (a : MediaAttribute) (hstate : c.confState_ = ConferenceState.ACTIVE_ATTACHED)
    (ha : ml.find? (mediaSourcePred MediaType.video) = Option.some a) :
    (takeOverType c ml MediaType.video).1.hostVideoSource_.muted_
      = (if c.participants_.length == 1 then a.muted_
         else a.muted_ && isMediaSourceMuted c MediaType.video) := by
  unfold takeOverType
  rw [ha]
  simp only []
  rw [if_pos (by rw [hstate]; rfl)]
  split_ifs <;> rfl

/-- isMediaSourceMuted of the video type only reads the state and the video
slot. -/
theorem isMediaSourceMuted_video_congr (c1 c2 : Conference)
    (h1 : c1.confState_ = c2.confState_) (h2 : c1.hostVideoSource_ = c2.hostVideoSource_) :
    isMediaSourceMuted c1 MediaType.video = isMediaSourceMuted c2 MediaType.video := by
  unfold isMediaSourceMuted
  rw [h1, h2]
  simp

/-- C6: takeOverMediaSourceControl in attached mode. For each media type
with an active source on the call, the host slot inherits the call mute
state when the call is the only participant and otherwise becomes muted iff
the call stream and the current host source are both muted; the media list
sent back to the call carries the first active stream of each type with its
mute flag forced to false; and the trace is exactly the re-apply request
followed by the AudioMuted and VideoMuted signals carrying the resulting
host mute states. -/
theorem c6_takeOverMediaSourceControl (c : Conference) (env : Env) (callId : String)
    (call : Call) (u : String)
    (hcall : getCall env callId = Option.some call)
    (hacc : call.accountUsername = Option.some u)
    (hstate : c.confState_ = ConferenceState.ACTIVE_ATTACHED) :
    (∀ a, call.mediaList.find? (mediaSourcePred MediaType.audio) = Option.some a
      → (takeOverMediaSourceControl c env callId).1.hostAudioSource_.muted_
          = (if c.participants_.length == 1 then a.muted_
             else a.muted_ && isMediaSourceMuted c MediaType.audio))
    ∧ (∀ b, call.mediaList.find? (mediaSourcePred MediaType.video) = Option.some b
      → (takeOverMediaSourceControl c env callId).1.hostVideoSource_.muted_
          = (if c.participants_.length == 1 then b.muted_
             else b.muted_ && isMediaSourceMuted c MediaType.video))
    ∧ (takeOverMediaSourceControl c env callId).2
        = [ConfAction.requestCallMediaChange callId
             (mediaAttributesToMediaMaps
               (unmuteFirst (unmuteFirst call.mediaList MediaType.audio) MediaType.video)),
           ConfAction.emitAudioMuted
             (isMediaSourceMuted (takeOverMediaSourceControl c env callId).1 MediaType.audio),
           ConfAction.emitVideoMuted
             (isMediaSourceMuted (takeOverMediaSourceControl c env callId).1 MediaType.video)]
    ∧ (∀ a, call.mediaList.find? (mediaSourcePred MediaType.audio) = Option.some a
      → (unmuteFirst (unmuteFirst call.mediaList MediaType.audio) MediaType.video).find?
            (mediaSourcePred MediaType.audio) = Option.some { a with muted_ := false })
    ∧ (∀ b, call.mediaList.find? (mediaSourcePred MediaType.video) = Option.some b
      → (unmuteFirst (unmuteFirst call.mediaList MediaType.audio) MediaType.video).find?
            (mediaSourcePred MediaType.video) = Option.some { b with muted_ := false }) := by
  refine ⟨?_, ?_, ?_, ?_, ?_⟩
  · intro a ha
    simp only [takeOverMediaSourceControl, hcall, hacc]
    rw [takeOverType_video_hostAudio]
    exact takeOverType_audio_muted c call.mediaList a hstate ha
  · intro b hb
    simp only [takeOverMediaSourceControl, hcall, hacc]
    rw [takeOverType_snd c call.mediaList MediaType.audio]
    have hfv : (unmuteFirst call.mediaList MediaType.audio).find?
        (mediaSourcePred MediaType.video) = Option.some b := by
      rw [find_unmuteFirst_ne call.mediaList MediaType.audio MediaType.video (by decide)]
      exact hb
    have hst1 : (takeOverType c call.mediaList MediaType.audio).1.confState_
        = ConferenceState.ACTIVE_ATTACHED := by
      rw [takeOverType_confState]
      exact hstate
    rw [takeOverType_video_muted _ _ b hst1 hfv]
    rw [takeOverType_participants]
    rw [isMediaSourceMuted_video_congr (takeOverType c call.mediaList MediaType.audio).1 c
      (takeOverType_confState c call.mediaList MediaType.audio)
      (takeOverType_audio_hostVideo c call.mediaList)]
  · simp only [takeOverMediaSourceControl, hcall, hacc]
    rw [takeOverType_snd c call.mediaList MediaType.audio,
      takeOverType_snd _ (unmuteFirst call.mediaList MediaType.audio) MediaType.video]
  · intro a ha
    rw [find_unmuteFirst_ne _ MediaType.video MediaType.audio (by decide),
      find_unmuteFirst_self, ha]
    rfl
  · intro b hb
    rw [find_unmuteFirst_self,
      find_unmuteFirst_ne _ MediaType.audio MediaType.video (by decide), hb]
    rfl

/-- C6 witness: the takeover contract evaluated on the single-participant
fixture conference with the alice call (muted audio, unmuted video). -/
theorem c6_takeOverMediaSourceControl_witness :
    getCall envFix "c1" = Option.some callAlice
    ∧ ((∀ a, callAlice.mediaList.find? (mediaSourcePred MediaType.audio) = Option.some a
        → (takeOverMediaSourceControl confSolo envFix "c1").1.hostAudioSource_.muted_
            = (if confSolo.participants_.length == 1 then a.muted_
               else a.muted_ && isMediaSourceMuted confSolo MediaType.audio))
      ∧ (∀ b, callAlice.mediaList.find? (mediaSourcePred MediaType.video) = Option.some b
        → (takeOverMediaSourceControl confSolo envFix "c1").1.hostVideoSource_.muted_
            = (if confSolo.participants_.length == 1 then b.muted_
               else b.muted_ && isMediaSourceMuted confSolo MediaType.video))
      ∧ (takeOverMediaSourceControl confSolo envFix "c1").2
          = [ConfAction.requestCallMediaChange "c1"
               (mediaAttributesToMediaMaps
                 (unmuteFirst (unmuteFirst callAlice.mediaList MediaType.audio)
                   MediaType.video)),
             ConfAction.emitAudioMuted
               (isMediaSourceMuted (takeOverMediaSourceControl confSolo envFix "c1").1
                 MediaType.audio),
             ConfAction.emitVideoMuted
               (isMediaSourceMuted (takeOverMediaSourceControl confSolo envFix "c1").1
                 MediaType.video)]
      ∧ (∀ a, callAlice.mediaList.find? (mediaSourcePred MediaType.audio) = Option.some a
        → (unmuteFirst (unmuteFirst callAlice.mediaList MediaType.audio)
              MediaType.video).find? (mediaSourcePred MediaType.audio)
            = Option.some { a with muted_ := false })
      ∧ (∀ b, callAlice.mediaList.find? (mediaSourcePred MediaType.video) = Option.some b
        → (unmuteFirst (unmuteFirst callAlice.mediaList MediaType.audio)
              MediaType.video).find? (mediaSourcePred MediaType.video)
            = Option.some { b with muted_ := false })) :=
  ⟨by decide,
   c6_takeOverMediaSourceControl confSolo envFix "c1" callAlice "me"
     (by decide) (by decide) (by decide)⟩
